import Mathlib

/-!
# turnstiled: request protocol, login registry and child supervision

A shallow embedding of `src/turnstiled.cc` and of the exec-vector part of
`src/dinit_utils.cc`.  The daemon's globals (`logins`, `fds`, `npipes`) are passed
explicitly; a pointer to a login inside the `logins` vector is
a focus `(pre, lgn, post)` with `logins = pre ++ lgn :: post`.  Every function
returns, next to its C++ result, the list of externally visible actions it
performed (oldest first).  Results of system calls are read from an `Env`.

`unsigned int` is a `Nat` reduced modulo `2 ^ 32`; `pid_t` and descriptors are
`Int`; a C string is the list of its bytes before the terminating NUL.
-/

namespace Turnstile

/-- A C string: its bytes, in order, up to (not including) the terminating NUL. -/
abbrev CStr := List Nat

/-- Modulus of `unsigned int`. -/
def UINT : Nat := 2 ^ 32

/-- Signal number of SIGTERM. -/
def SIGTERM : Nat := 15

/-- `static constexpr std::time_t kill_timeout = 60;` -/
def kill_timeout : Nat := 60

/-- Modelled from the spec: the protocol header reached through `turnstiled.hh` is not
among the sources, so the message tags, `MSG_TYPE_BITS`, `MSG_TYPE_MASK`, the chunk
size used by `MSG_SBYTES` and `DIRLEN_MAX` are parameters.  The spec fixes only their
roles: a message is one 32-bit word, its low `MSG_TYPE_BITS` bits are the type tag and
the upper bits the auxiliary payload. -/
structure protocol where
  MSG_OK_WAIT : Nat
  MSG_OK_DONE : Nat
  MSG_REQ_RLEN : Nat
  MSG_REQ_RDATA : Nat
  MSG_DATA : Nat
  MSG_START : Nat
  MSG_ERR : Nat
  MSG_TYPE_BITS : Nat
  MSG_TYPE_MASK : Nat
  /-- the largest number of bytes `MSG_SBYTES` lets one reply carry -/
  SBYTES_MAX : Nat
  DIRLEN_MAX : Nat
deriving DecidableEq, Repr

/-- The seven message tags of a protocol header. -/
def protocol.tags (P : protocol) : List Nat :=
  [P.MSG_OK_WAIT, P.MSG_OK_DONE, P.MSG_REQ_RLEN, P.MSG_REQ_RDATA, P.MSG_DATA,
   P.MSG_START, P.MSG_ERR]

/-- What any header must satisfy for the daemon to compile and the tag to be a bit
field: the mask selects exactly the low `MSG_TYPE_BITS` bits, every tag fits under the
mask, and the tags are pairwise different (they are `case` labels of one `switch`). -/
def protocol.wf (P : protocol) : Prop :=
  P.MSG_TYPE_BITS ≤ 32 ∧ P.MSG_TYPE_MASK + 1 = 2 ^ P.MSG_TYPE_BITS ∧
  (∀ t ∈ P.tags, t ≤ P.MSG_TYPE_MASK) ∧ P.tags.Nodup

instance (P : protocol) : Decidable P.wf := by
  unfold protocol.wf; infer_instance

/-- Modelled from the spec: `MSG_ENCODE_AUX(v, tp)` is a macro of the missing header.
It places the tag in the low bits and the payload `v`, converted to `unsigned int`,
above them; the result is an `unsigned int`. -/
def MSG_ENCODE_AUX (P : protocol) (v tp : Nat) : Nat :=
  (tp ||| ((v % UINT) <<< P.MSG_TYPE_BITS)) % UINT

/-- Modelled from the spec: `MSG_ENCODE(v)` is the `MSG_DATA` packet with payload `v`. -/
def MSG_ENCODE (P : protocol) (v : Nat) : Nat :=
  MSG_ENCODE_AUX P v P.MSG_DATA

/-- Modelled from the spec: `MSG_SBYTES(len)`, the number of bytes one reply carries:
`len` capped by the header's chunk size. -/
def MSG_SBYTES (P : protocol) (len : Nat) : Nat :=
  min P.SBYTES_MAX len

/-- The value of an `unsigned int` whose first bytes in memory are `bs` and whose other
bytes are zero, read through `le32toh`: byte `i` has weight `256 ^ i`. -/
def le32toh : List Nat → Nat
  | [] => 0
  | b :: bs => b + 256 * le32toh bs

/-- The fields of `cfg_data` the daemon core reads. -/
structure cfg_data where
  manage_rdir : Bool
  disable : Bool
  login_timeout : Nat
  linger : Bool
  linger_never : Bool
  export_dbus : Bool
deriving DecidableEq, Repr

/-- A `struct pollfd`. -/
structure pollfd where
  fd : Int
  events : Nat
  revents : Nat
deriving DecidableEq, Repr

/-- A session: one accepted client connection. -/
structure session where
  fd : Int
deriving DecidableEq, Repr

/-- The per-UID state (`struct login`); the timer handle itself is not modelled, only
`timer_armed`. -/
structure login where
  uid : Nat
  gid : Nat
  username : CStr
  homedir : CStr
  shell : CStr
  rundir : CStr
  manage_rdir : Bool
  sessions : List session
  srv_pid : Int
  start_pid : Int
  term_pid : Int
  srv_wait : Bool
  srv_pending : Bool
  pipe_queued : Bool
  kill_tried : Bool
  repopulate : Bool
  timer_armed : Bool
  dirfd : Int
  userpipe : Int
  srvstr : CStr
deriving DecidableEq, Repr

/-- The fields of `struct passwd` that `login_populate` copies. -/
structure passwd where
  pw_uid : Nat
  pw_gid : Nat
  pw_name : CStr
  pw_dir : CStr
  pw_shell : CStr
deriving DecidableEq, Repr

/-- Externally visible actions.  `arm_timer` and `srv_start` mark the entry into the
function of that name, so that invocations can be counted. -/
inductive Event where
  | send (fd : Int) (msg : Nat)
  | close (fd : Int)
  | kill (pid : Int) (sig : Nat)
  | arm_timer (uid : Nat) (timeout : Nat)
  | timer_delete (uid : Nat)
  | remove_sdir (uid : Nat)
  | rundir_clear (uid : Nat)
  | srv_start (uid : Nat)
deriving DecidableEq, Repr

/-- What `recv(fd, &msg, sizeof(msg), 0)` gave: a whole word, a short read with
`errno == EAGAIN`, or any other failure. -/
inductive recv_result where
  | msg (m : Nat)
  | eagain
  | error
deriving DecidableEq, Repr

/-- The process environment: the protocol header, the configuration, and the outcome of
every system or library call whose result the daemon branches on. -/
structure Env where
  proto : protocol
  cdata : cfg_data
  /-- a default-constructed `login` (its member initialisers are in the header) -/
  login_new : login
  /-- `get_peer_euid`: the peer's effective UID, when it can be read -/
  get_peer_euid : Int → Option Nat
  getpwuid : Nat → Option passwd
  /-- `cfg_expand_rundir` for (uid, gid): success flag and the buffer it leaves -/
  cfg_expand_rundir : Nat → Nat → Bool × CStr
  /-- `send(fd, &msg, ...) >= 0` -/
  send_ok : Int → Nat → Bool
  /-- `open(LINGER_PATH, O_RDONLY) >= 0` -/
  linger_open : Bool
  /-- `fstatat` finds a regular file named after the user -/
  linger_isreg : CStr → Bool
  /-- `timer_create` succeeds for the login with this uid -/
  timer_create_ok : Nat → Bool
  /-- `timer_settime` succeeds for the login with this uid -/
  timer_settime_ok : Nat → Bool
  rundir_make : CStr → Nat → Nat → Bool
  /-- `dir_make_at(userv_dirfd, uidbuf, 0700)` -/
  dir_make_at : Nat → Int
  /-- `fchownat` of the login dir and `fcntl(FD_CLOEXEC)` both succeed -/
  login_dir_setup_ok : Nat → Bool
  /-- `mkfifoat(dirfd, "ready") >= 0` -/
  mkfifoat_ok : Nat → Bool
  /-- `fchownat(dirfd, "ready")` succeeds -/
  fchownat_ready_ok : Nat → Bool
  /-- `openat(dirfd, "ready", O_NONBLOCK | O_RDONLY)` -/
  openat_ready : Nat → Int
  /-- `fork()` as seen by the parent in `srv_start` -/
  fork : Nat → Int
  /-- `fork()` as seen by the parent in `srv_boot` -/
  boot_fork : Nat → Int

/-- `login::remove_sdir`. -/
def remove_sdir (lgn : login) : login × List Event :=
  ({ lgn with dirfd := -1 }, [Event.remove_sdir lgn.uid])

/-- `login::arm_timer`. -/
def arm_timer (env : Env) (lgn : login) (timeout : Nat) : Bool × login × List Event :=
  if env.timer_create_ok lgn.uid = false then
    (false, lgn, [Event.arm_timer lgn.uid timeout])
  else if env.timer_settime_ok lgn.uid = false then
    (false, lgn, [Event.arm_timer lgn.uid timeout, Event.timer_delete lgn.uid])
  else
    (true, { lgn with timer_armed := true }, [Event.arm_timer lgn.uid timeout])

/-- `login::disarm_timer`. -/
def disarm_timer (lgn : login) : login × List Event :=
  if lgn.timer_armed = false then (lgn, [])
  else ({ lgn with timer_armed := false }, [Event.timer_delete lgn.uid])

/-- Modelled from the spec: `srv_boot` is not among the sources.  It spawns the boot
helper and stores its PID in `start_pid`; a failed fork is unrecoverable. -/
def srv_boot (env : Env) (lgn : login) : Bool × login × List Event :=
  if env.boot_fork lgn.uid < 0 then (false, lgn, [])
  else (true, { lgn with start_pid := env.boot_fork lgn.uid }, [])

/-- The login-directory block of `srv_start` (`if (!cdata->disable) { ... }`): `ok`
carries on, `error` is a `return false`. -/
def srv_start_dir (env : Env) (lgn : login) :
    Except (login × List Event) (login × List Event) :=
  if env.cdata.disable then .ok (lgn, [])
  else
    let lgn1 := { lgn with dirfd := env.dir_make_at lgn.uid }
    if lgn1.dirfd < 0 then .error (lgn1, [])
    else if env.login_dir_setup_ok lgn.uid = false then .error (remove_sdir lgn1)
    else if env.mkfifoat_ok lgn.uid = false then .error (lgn1, [])
    else if env.fchownat_ready_ok lgn.uid = false then .error (remove_sdir lgn1)
    else
      let lgn2 := { lgn1 with userpipe := env.openat_ready lgn.uid }
      if lgn2.userpipe < 0 then .error (remove_sdir lgn2)
      else .ok (lgn2, [])

/-- `srv_start`: start the service manager instance for a login (the parent's side of
the fork). -/
def srv_start (env : Env) (lgn0 : login) : Bool × login × List Event :=
  let e0 := [Event.srv_start lgn0.uid]
  let lgn := { lgn0 with srv_wait := true }
  if env.cdata.manage_rdir = true ∧ env.rundir_make lgn.rundir lgn.uid lgn.gid = false then
    (false, lgn, e0)
  else
    match srv_start_dir env lgn with
    | .error (l, e) => (false, l, e0 ++ e)
    | .ok (l, e) =>
      let tm : Bool × login × List Event :=
        if env.cdata.login_timeout > 0 then arm_timer env l env.cdata.login_timeout
        else (true, l, [])
      if tm.1 = false then (false, tm.2.1, e0 ++ e ++ tm.2.2)
      else if env.fork lgn0.uid < 0 then (false, tm.2.1, e0 ++ e ++ tm.2.2)
      else
        let l2 := { tm.2.1 with srv_pending := false, srv_pid := env.fork lgn0.uid }
        if l2.userpipe < 0 then
          let b := srv_boot env l2
          (b.1, b.2.1, e0 ++ e ++ tm.2.2 ++ b.2.2)
        else (true, { l2 with pipe_queued := true }, e0 ++ e ++ tm.2.2)

/-- `get_login`: the first login holding a session for `fd`. -/
def get_login (fd : Int) (logins : List login) : Option login :=
  logins.find? (fun l => l.sessions.any (fun s => s.fd == fd))

/-- `msg_send`. -/
def msg_send (env : Env) (fd : Int) (msg : Nat) : Bool × List Event :=
  if env.send_ok fd msg = false then (false, [Event.send fd msg])
  else (msg != env.proto.MSG_ERR, [Event.send fd msg])

/-- The search loop of `login_populate`: the first login with this uid, as a focus. -/
def login_find (uid : Nat) : List login → Option (List login × login × List login)
  | [] => none
  | l :: rest =>
    if l.uid = uid then some ([], l, rest)
    else
      match login_find uid rest with
      | none => none
      | some (pre, x, post) => some (l :: pre, x, post)

/-- `login_populate`: the returned pointer (if any) and the login table afterwards. -/
def login_populate (env : Env) (uid : Nat) (logins : List login) :
    Option (List login × login × List login) × List login :=
  let hit := login_find uid logins
  if (match hit with | some (_, l, _) => !l.repopulate | none => false) = true then
    (hit, logins)
  else
    match env.getpwuid uid with
    | none => (none, logins)
    | some pwd =>
      if pwd.pw_dir.head? ≠ some 47 then (none, logins)
      else
        let slot : List login × login × List login :=
          match hit with
          | some z => z
          | none => (logins, env.login_new, [])
        let l1 := { slot.2.1 with
          uid := pwd.pw_uid, gid := pwd.pw_gid, username := pwd.pw_name,
          homedir := pwd.pw_dir, shell := pwd.pw_shell }
        let ex := env.cfg_expand_rundir l1.uid l1.gid
        let l2 := { l1 with rundir := ex.2 }
        if ex.1 = false then (none, slot.1 ++ l2 :: slot.2.2)
        else
          let l3 := { l2 with
            manage_rdir := env.cdata.manage_rdir && !l2.rundir.isEmpty,
            repopulate := false }
          (some (slot.1, l3, slot.2.2), slot.1 ++ l3 :: slot.2.2)

/-- `handle_session_new`: the returned pointer (if any) and the login table afterwards. -/
def handle_session_new (env : Env) (fd : Int) (uid : Nat) (logins : List login) :
    Option (List login × login × List login) × List login :=
  match env.get_peer_euid fd with
  | none => (none, logins)
  | some puid =>
    if puid ≠ 0 ∧ uid ≠ puid then (none, logins)
    else
      match login_populate env uid logins with
      | (none, logins1) => (none, logins1)
      | (some (pre, l, post), logins1) =>
        if l.sessions.any (fun s => s.fd == fd) then (none, logins1)
        else
          let l1 := { l with sessions := l.sessions ++ [{ fd := fd }] }
          (some (pre, l1, post), pre ++ l1 :: post)

/-- The `MSG_START` case of `handle_read` after `handle_session_new` returned `lgn`. -/
def handle_start (env : Env) (fd : Int) (pre : List login) (lgn : login)
    (post : List login) : Bool × List login × List Event :=
  if lgn.srv_wait = false then
    let s := msg_send env fd
      (MSG_ENCODE_AUX env.proto env.cdata.export_dbus.toNat env.proto.MSG_OK_DONE)
    (s.1, pre ++ lgn :: post, s.2)
  else if lgn.srv_pid = -1 then
    if lgn.term_pid ≠ -1 then
      let s := msg_send env fd env.proto.MSG_OK_WAIT
      (s.1, pre ++ { lgn with srv_pending := true } :: post, s.2)
    else
      let r := srv_start env lgn
      if r.1 = false then (false, pre ++ r.2.1 :: post, r.2.2)
      else
        let s := msg_send env fd env.proto.MSG_OK_WAIT
        (s.1, pre ++ r.2.1 :: post, r.2.2 ++ s.2)
  else
    let s := msg_send env fd env.proto.MSG_OK_WAIT
    (s.1, pre ++ lgn :: post, s.2)

/-- `handle_read`: result, login table afterwards, actions. -/
def handle_read (env : Env) (fd : Int) (rx : recv_result) (logins : List login) :
    Bool × List login × List Event :=
  match rx with
  | .eagain => (true, logins, [])
  | .error => (false, logins, [])
  | .msg msg =>
    let P := env.proto
    if msg &&& P.MSG_TYPE_MASK = P.MSG_START then
      match handle_session_new env fd (msg >>> P.MSG_TYPE_BITS) logins with
      | (none, logins1) =>
        let s := msg_send env fd P.MSG_ERR
        (s.1, logins1, s.2)
      | (some (pre, lgn, post), _) => handle_start env fd pre lgn post
    else if msg &&& P.MSG_TYPE_MASK = P.MSG_REQ_RLEN then
      match get_login fd logins with
      | none =>
        let s := msg_send env fd P.MSG_ERR
        (s.1, logins, s.2)
      | some lgn =>
        if lgn.rundir.isEmpty then
          let s := msg_send env fd P.MSG_DATA
          (s.1, logins, s.2)
        else
          let rlen := lgn.rundir.length
          let s := msg_send env fd
            (if env.cdata.manage_rdir then MSG_ENCODE P (rlen + P.DIRLEN_MAX)
             else MSG_ENCODE P rlen)
          (s.1, logins, s.2)
    else if msg &&& P.MSG_TYPE_MASK = P.MSG_REQ_RDATA then
      match get_login fd logins with
      | none =>
        let s := msg_send env fd P.MSG_ERR
        (s.1, logins, s.2)
      | some lgn =>
        let m := msg >>> P.MSG_TYPE_BITS
        if m = 0 then
          let s := msg_send env fd P.MSG_ERR
          (s.1, logins, s.2)
        else
          let rlen := lgn.rundir.length
          if m > rlen then
            let s := msg_send env fd P.MSG_ERR
            (s.1, logins, s.2)
          else
            let v := le32toh ((lgn.rundir.drop (rlen - m)).take (MSG_SBYTES P m))
            let s := msg_send env fd (MSG_ENCODE P v)
            (s.1, logins, s.2)
    else (false, logins, [])

/-- `check_linger`. -/
def check_linger (env : Env) (lgn : login) : Bool :=
  if env.cdata.linger_never then false
  else if env.cdata.linger then true
  else if env.linger_open = false then false
  else env.linger_isreg lgn.username

/-- `conn_term_login`: terminate the given connection, but only if within the login. -/
def conn_term_login (env : Env) (lgn : login) (conn : Int) : Bool × login × List Event :=
  if lgn.sessions.any (fun s => s.fd == conn) then
    let l1 := { lgn with sessions := lgn.sessions.eraseP (fun s => s.fd == conn) }
    if l1.sessions.isEmpty = true ∧ check_linger env l1 = false then
      let r : login × List Event :=
        if l1.srv_pid ≠ -1 then
          let a := arm_timer env { l1 with term_pid := l1.srv_pid } kill_timeout
          (a.2.1, Event.kill l1.srv_pid SIGTERM :: a.2.2)
        else remove_sdir l1
      (true, { r.1 with srv_pid := -1, start_pid := -1, srv_wait := true },
        r.2 ++ [Event.close conn])
    else (true, l1, [Event.close conn])
  else (false, lgn, [])

/-- `conn_term`: the loop over the logins; `close(conn)` when no login has it. -/
def conn_term (env : Env) (conn : Int) : List login → List login × List Event
  | [] => ([], [Event.close conn])
  | lgn :: rest =>
    let r := conn_term_login env lgn conn
    if r.1 then (r.2.1 :: rest, r.2.2)
    else
      let q := conn_term env conn rest
      (lgn :: q.1, q.2)

/-- The loop of `drop_login` over the poll entries `fds[j]`, `j >= 2`, given as a list. -/
def drop_login_loop (env : Env) : List pollfd → login → List pollfd × login × List Event
  | [], lgn => ([], lgn, [])
  | p :: ps, lgn =>
    let r := conn_term_login env lgn p.fd
    let p1 := if r.1 then { p with fd := -1, revents := 0 } else p
    let q := drop_login_loop env ps r.2.1
    (p1 :: q.1, q.2.1, r.2.2 ++ q.2.2)

/-- `drop_login`. -/
def drop_login (env : Env) (lgn : login) (fds : List pollfd) :
    Bool × login × List pollfd × List Event :=
  let q := drop_login_loop env (fds.drop 2) lgn
  let l1 := { q.2.1 with repopulate := true }
  (l1.sessions.isEmpty, l1, fds.take 2 ++ q.1, q.2.2)

/-- `sig_handle_alrm` for the login the timer payload points to. -/
def sig_handle_alrm (env : Env) (lgn : login) (fds : List pollfd) :
    Bool × login × List pollfd × List Event :=
  if lgn.timer_armed = false then (false, lgn, fds, [])
  else
    let d := disarm_timer lgn
    if d.1.term_pid ≠ -1 then
      if d.1.kill_tried then (false, d.1, fds, d.2)
      else
        let a := arm_timer env { d.1 with kill_tried := true } kill_timeout
        (true, a.2.1, fds, d.2 ++ [Event.kill d.1.term_pid SIGTERM] ++ a.2.2)
    else
      let r := drop_login env d.1 fds
      (r.1, r.2.1, r.2.2.1, d.2 ++ r.2.2.2)

/-- `rundir_clear` when the login manages its rundir, as both reaper branches do it. -/
def clear_managed_rdir (lgn : login) : login × List Event :=
  if lgn.manage_rdir then ({ lgn with manage_rdir := false }, [Event.rundir_clear lgn.uid])
  else (lgn, [])

/-- The `pid == lgn.term_pid` branch of `srv_reaper` up to the test of `srv_pending`:
disarm the timer, remove the login directory, clear a managed rundir, mark an empty login
for repopulation, reset `term_pid` and `kill_tried`. -/
def reap_term (lgn : login) : login × List Event :=
  let d := disarm_timer lgn
  let s := remove_sdir d.1
  let c := clear_managed_rdir s.1
  let l1 := if c.1.sessions.isEmpty then { c.1 with repopulate := true } else c.1
  ({ l1 with term_pid := -1, kill_tried := false }, d.2 ++ s.2 ++ c.2)

/-- `srv_reaper`: result, login table, poll list, actions. -/
def srv_reaper (env : Env) (pid : Int) :
    List login → List pollfd → Bool × List login × List pollfd × List Event
  | [], fds => (true, [], fds, [])
  | lgn :: rest, fds =>
    if pid = lgn.srv_pid then
      let d := disarm_timer { lgn with srv_pid := -1, start_pid := -1 }
      if d.1.srv_wait then
        let c := clear_managed_rdir d.1
        let r := drop_login env c.1 fds
        (r.1, r.2.1 :: rest, r.2.2.1, d.2 ++ c.2 ++ r.2.2.2)
      else
        let r := srv_start env d.1
        (r.1, r.2.1 :: rest, fds, d.2 ++ r.2.2)
    else if pid = lgn.start_pid then
      let msg := MSG_ENCODE_AUX env.proto env.cdata.export_dbus.toNat env.proto.MSG_OK_DONE
      let sent := lgn.sessions.map (fun s => Event.send s.fd msg)
      let d := disarm_timer lgn
      let l1 := { d.1 with start_pid := -1, srv_wait := false }
      let q := srv_reaper env pid rest fds
      (q.1, l1 :: q.2.1, q.2.2.1, sent ++ d.2 ++ q.2.2.2)
    else if pid = lgn.term_pid then
      let t := reap_term lgn
      if t.1.srv_pending then
        let r := srv_start env t.1
        (r.1, r.2.1 :: rest, fds, t.2 ++ r.2.2)
      else
        let q := srv_reaper env pid rest fds
        (q.1, t.1 :: q.2.1, q.2.2.1, t.2 ++ q.2.2.2)
    else
      let q := srv_reaper env pid rest fds
      (q.1, lgn :: q.2.1, q.2.2.1, q.2.2.2)

/-- The uids of the logins for which `srv_start` was entered, in order of the calls. -/
def started (ev : List Event) : List Nat :=
  ev.filterMap (fun e => match e with | .srv_start u => some u | _ => none)

/-- The bytes a reply to MSG_REQ_RDATA(R) is built from: `MSG_SBYTES(R)` bytes of `rundir`
starting at offset `len - R` (the arguments of the `memcpy` in `handle_read`). -/
def rdata_chunk (P : protocol) (rundir : CStr) (R : Nat) : List Nat :=
  (rundir.drop (rundir.length - R)).take (MSG_SBYTES P R)

/-- The first `n` bytes of a payload value, lowest byte first. -/
def payload_bytes (v : Nat) : Nat → List Nat
  | 0 => []
  | n + 1 => v % 256 :: payload_bytes (v / 256) n

/-- Two logins agree on the fields that starting a service manager never writes. -/
def same_core (a b : login) : Prop :=
  a.sessions = b.sessions ∧ a.kill_tried = b.kill_tried ∧ a.uid = b.uid ∧
  a.term_pid = b.term_pid ∧ a.manage_rdir = b.manage_rdir ∧ a.repopulate = b.repopulate

/-- `pid` is none of the child PIDs recorded in the login: no branch of `srv_reaper`
fires for it. -/
def not_child (pid : Int) (l : login) : Prop :=
  pid ≠ l.srv_pid ∧ pid ≠ l.start_pid ∧ pid ≠ l.term_pid

instance (pid : Int) (l : login) : Decidable (not_child pid l) := by
  unfold not_child; infer_instance

/-- `POLLIN` of `<poll.h>` (its Linux value). -/
def POLLIN : Nat := 1

/-- `POLLHUP` of `<poll.h>` (its Linux value). -/
def POLLHUP : Nat := 16

/-- `fd_handle_conn(i)`: result, login table, poll list, actions.  `rx` is what `recv`
gives if `handle_read` is reached; an index outside the poll list is not reached by the
main loop and leaves everything as it is. -/
def fd_handle_conn (env : Env) (i : Nat) (rx : recv_result) (logins : List login)
    (fds : List pollfd) : Bool × List login × List pollfd × List Event :=
  match fds[i]? with
  | none => (true, logins, fds, [])
  | some p =>
    if p.revents = 0 then (true, logins, fds, [])
    else if p.revents &&& POLLHUP ≠ 0 then
      let t := conn_term env p.fd logins
      (true, t.1, fds.set i { p with fd := -1, revents := 0 }, t.2)
    else if p.revents &&& POLLIN ≠ 0 then
      let r := handle_read env p.fd rx logins
      if r.1 = false then
        let t := conn_term env p.fd r.2.1
        (true, t.1, fds.set i { p with fd := -1, revents := 0 }, r.2.2 ++ t.2)
      else (true, r.2.1, fds, r.2.2)
    else (true, logins, fds, [])

/-- The words sent, with their connection, in order. -/
def sent (ev : List Event) : List (Int × Nat) :=
  ev.filterMap (fun e => match e with | .send fd m => some (fd, m) | _ => none)

/-! ## `dinit_utils.cc`: the argument and environment vectors of `dinit_child`

This file of the repository is of a revision in which the per-user record is called
`session`; its definitions live in the namespace `Dinit`. -/

namespace Dinit

/-- The fields of the `session` record that `dinit_child` builds its exec vectors from. -/
structure session where
  homedir : CStr
  rundir : CStr
  uids : CStr
  gids : CStr
deriving DecidableEq, Repr

/-- The bytes of a string literal of the source (all of them are ASCII). -/
def cstr (s : String) : CStr := s.toList.map Char.toNat

/-- The lambda `add_str(s...)` acting on `(execs, nexec)`: append every piece, then a
NUL, and count one more string. -/
def add_str (st : List Nat × Nat) (s : List CStr) : List Nat × Nat :=
  (st.1 ++ s.flatten ++ [0], st.2 + 1)

/-- The loop `for (auto &sp: cdata->srv_paths)`. -/
def add_srv_paths (homedir : CStr) : List CStr → List Nat × Nat → List Nat × Nat
  | [], st => st
  | sp :: rest, st =>
    let st1 := add_str st [cstr "--services-dir"]
    let st2 :=
      if sp.head? ≠ some 47 then add_str st1 [homedir, cstr "/", sp]
      else add_str st1 [sp]
    add_srv_paths homedir rest st2

/-- `std::strlen(execsp)` for the pointer `execs.data() + p`. -/
def strlen (execs : List Nat) (p : Nat) : Nat :=
  ((execs.drop p).takeWhile (fun c => c != 0)).length

/-- A loop `argp.push_back(execsp); execsp += std::strlen(execsp) + 1;` run `n` times
from the pointer `p`: the pointers pushed and the pointer it ends at. -/
def push_ptrs (execs : List Nat) : Nat → Nat → List (Option Nat) × Nat
  | 0, p => ([], p)
  | n + 1, p =>
    let r := push_ptrs execs n (p + strlen execs p + 1)
    (some p :: r.1, r.2)

/-- What `dinit_child` has built when it calls `execvpe`. -/
structure exec_args where
  execs : List Nat
  /-- the vector `argp`: offsets into `execs`, `none` for `nullptr` -/
  argp : List (Option Nat)
  argc : Nat
  nexec : Nat
deriving DecidableEq, Repr

/-- The part of `dinit_child` from "build up env and args list" to the call of
`execvpe`.  `RUN_PATH` and `SOCK_DIR` are build-time constants, `srv_paths` is
`cdata->srv_paths`, `tdirn` the scratch directory name `dinit.<pid>`. -/
def dinit_child (RUN_PATH SOCK_DIR : CStr) (srv_paths : List CStr) (sess : session)
    (pipenum tdirn : CStr) : exec_args :=
  let s0 : List Nat × Nat := ([], 0)
  let s1 := add_str s0 [cstr "dinit"]
  let s2 := add_str s1 [cstr "--user"]
  let s3 := add_str s2 [cstr "--ready-fd"]
  let s4 := add_str s3 [pipenum]
  let s5 := add_str s4 [cstr "--services-dir"]
  let s6 := add_str s5 [RUN_PATH, cstr "/", SOCK_DIR, cstr "/", sess.uids, cstr "/", tdirn]
  let s7 := add_srv_paths sess.homedir srv_paths s6
  let argc := s7.2
  let e1 := add_str s7 [cstr "HOME=", sess.homedir]
  let e2 := add_str e1 [cstr "UID=", sess.uids]
  let e3 := add_str e2 [cstr "GID=", sess.gids]
  let e4 := add_str e3 [cstr "PATH=/usr/local/bin:/usr/bin:/bin"]
  let e5 := if sess.rundir.head?.getD 0 ≠ 0 then add_str e4 [cstr "XDG_RUNTIME_DIR=", sess.rundir]
    else e4
  let a := push_ptrs e5.1 argc 0
  let b := push_ptrs e5.1 (e5.2 - argc) a.2
  { execs := e5.1, argp := a.1 ++ [none] ++ b.1 ++ [none], argc := argc, nexec := e5.2 }

/-- The C string at offset `p` of the buffer. -/
def c_str (execs : List Nat) (p : Nat) : CStr :=
  (execs.drop p).takeWhile (fun c => c != 0)

/-- The strings a NULL-terminated pointer vector starting at index `start` of `argp`
denotes, as `execvpe` reads it. -/
def read_vec (execs : List Nat) (argp : List (Option Nat)) (start : Nat) : List CStr :=
  (((argp.drop start).takeWhile Option.isSome).filterMap id).map (c_str execs)

/-- The `argv` that `execvpe("dinit", argv, argv + argc + 1)` receives. -/
def exec_argv (x : exec_args) : List CStr := read_vec x.execs x.argp 0

/-- The `envp` that `execvpe("dinit", argv, argv + argc + 1)` receives. -/
def exec_envp (x : exec_args) : List CStr := read_vec x.execs x.argp (x.argc + 1)

/-- The service directory argument for one configured path. -/
def srv_dir_arg (homedir sp : CStr) : CStr :=
  if sp.head? = some 47 then sp else homedir ++ cstr "/" ++ sp

/-- A string without a NUL byte, as every C string is. -/
def nul_free (s : CStr) : Prop := ∀ c ∈ s, c ≠ 0

instance (s : CStr) : Decidable (nul_free s) := by
  unfold nul_free; infer_instance

/-- The flat buffer holding the given strings one after the other, each followed by a
NUL. -/
def pack : List CStr → List Nat
  | [] => []
  | s :: rest => s ++ 0 :: pack rest

/-- The argument vector as the specification words it: the six fixed arguments, then for
each configured path "--services-dir" and the path or `<homedir>/<path>`. -/
def spec_argv (RUN_PATH SOCK_DIR : CStr) (srv_paths : List CStr) (sess : session)
    (pipenum tdirn : CStr) : List CStr :=
  [cstr "dinit", cstr "--user", cstr "--ready-fd", pipenum, cstr "--services-dir",
   RUN_PATH ++ cstr "/" ++ SOCK_DIR ++ cstr "/" ++ sess.uids ++ cstr "/" ++ tdirn] ++
  srv_paths.flatMap (fun sp => [cstr "--services-dir", srv_dir_arg sess.homedir sp])

/-- The environment vector as the specification words it. -/
def spec_envp (sess : session) : List CStr :=
  [cstr "HOME=" ++ sess.homedir, cstr "UID=" ++ sess.uids, cstr "GID=" ++ sess.gids,
   cstr "PATH=/usr/local/bin:/usr/bin:/bin"] ++
  (if sess.rundir ≠ [] then [cstr "XDG_RUNTIME_DIR=" ++ sess.rundir] else [])

end Dinit


/-- Modulus of `std::size_t`. -/
def SIZE : Nat := 2 ^ 64

/-- The poll entry `main` builds for the ready pipe of a login. -/
def pipe_pollfd (lgn : login) : pollfd :=
  { fd := lgn.userpipe, events := POLLIN ||| POLLHUP, revents := 0 }

/-- The loop "queue pipes after control socket" of `main`: logins, poll list and
`npipes` afterwards.  `fds.insert(fds.begin() + 2, pfd)` puts the entry at index 2. -/
def queue_pipes : List login → List pollfd → Nat → List login × List pollfd × Nat
  | [], fds, npipes => ([], fds, npipes)
  | lgn :: rest, fds, npipes =>
    if lgn.pipe_queued = false then
      let q := queue_pipes rest fds npipes
      (lgn :: q.1, q.2.1, q.2.2)
    else
      let q := queue_pipes rest (fds.take 2 ++ pipe_pollfd lgn :: fds.drop 2)
        ((npipes + 1) % SIZE)
      ({ lgn with pipe_queued := false } :: q.1, q.2.1, q.2.2)

/-- The `do_compact` step of the main loop: erase the entries with `fd == -1`, then queue
the pipes. -/
def do_compact (logins : List login) (fds : List pollfd) (npipes : Nat) :
    List login × List pollfd × Nat :=
  queue_pipes logins (fds.filter (fun p => p.fd != -1)) npipes

/-- The read loop of `fd_handle_pipe`: `avail` are the bytes successive `read` calls
deliver before one fails; the result is `srvstr` and `done`. -/
def read_ready : List Nat → CStr → CStr × Bool
  | [], srvstr => (srvstr, false)
  | c :: rest, srvstr => if c = 0 then (srvstr, true) else read_ready rest (srvstr ++ [c])

/-- The search loop of `fd_handle_pipe`: the first login whose `userpipe` is `fd`. -/
def pipe_find (fd : Int) : List login → Option (List login × login × List login)
  | [] => none
  | l :: rest =>
    if fd = l.userpipe then some ([], l, rest)
    else
      match pipe_find fd rest with
      | none => none
      | some (pre, x, post) => some (l :: pre, x, post)

/-- `fd_handle_pipe(i)`: result, login table, poll list, `npipes`, actions.  `avail` are
the bytes the pipe delivers; an index outside the poll list is not reached by the main
loop. -/
def fd_handle_pipe (env : Env) (i : Nat) (avail : List Nat) (logins : List login)
    (fds : List pollfd) (npipes : Nat) :
    Bool × List login × List pollfd × Nat × List Event :=
  match fds[i]? with
  | none => (true, logins, fds, npipes, [])
  | some p =>
    if p.revents = 0 then (true, logins, fds, npipes, [])
    else
      match pipe_find p.fd logins with
      | none => (false, logins, fds, npipes, [])
      | some (pre, lgn, post) =>
        let rd : CStr × Bool :=
          if p.revents &&& POLLIN ≠ 0 then read_ready avail lgn.srvstr else (lgn.srvstr, false)
        let l1 := { lgn with srvstr := rd.1 }
        if rd.2 = true ∨ p.revents &&& POLLHUP ≠ 0 then
          let l2 := { l1 with userpipe := -1, pipe_queued := false }
          let fds1 := fds.set i { p with fd := -1, revents := 0 }
          let np := (npipes + SIZE - 1) % SIZE
          let b := srv_boot env l2
          if b.1 = false then
            (false, pre ++ b.2.1 :: post, fds1, np, Event.close lgn.userpipe :: b.2.2)
          else
            (true, pre ++ { b.2.1 with srvstr := [] } :: post, fds1, np,
              Event.close lgn.userpipe :: b.2.2)
        else (true, pre ++ l1 :: post, fds, npipes, [])

/-- `sock_handle_conn`: `accepted` are the descriptors `accept4` returns before it
fails; each gets a poll entry at the end of the list. -/
def sock_handle_conn (accepted : List Int) (fds : List pollfd) : List pollfd :=
  match fds[1]? with
  | none => fds
  | some p =>
    if p.revents = 0 then fds
    else fds ++ accepted.map
      (fun afd => { fd := afd, events := POLLIN ||| POLLHUP, revents := 0 })

/-- The effect of `poll` on the list: the kernel writes `revents` of every entry, 0 for
an entry whose `fd` is negative; `ready` is what it reports per entry. -/
def poll (ready : List Nat) (fds : List pollfd) : List pollfd :=
  List.zipWith (fun p r => { p with revents := if p.fd < 0 then 0 else r }) fds ready

/-! ## Concrete instances used to exercise the theorems -/

/-- A protocol header instance: 4 tag bits, tags 1..7, three data bytes a reply. -/
def proto0 : protocol :=
  { MSG_OK_WAIT := 1, MSG_OK_DONE := 2, MSG_REQ_RLEN := 3, MSG_REQ_RDATA := 4,
    MSG_DATA := 5, MSG_START := 6, MSG_ERR := 7, MSG_TYPE_BITS := 4, MSG_TYPE_MASK := 15,
    SBYTES_MAX := 3, DIRLEN_MAX := 1024 }

/-- A configuration instance: backend enabled, no rundir management, no linger. -/
def cdata0 : cfg_data :=
  { manage_rdir := false, disable := false, login_timeout := 60, linger := false,
    linger_never := true, export_dbus := true }

/-- A login with no sessions and no children, for uid 1000. -/
def login0 : login :=
  { uid := 1000, gid := 1000, username := [117], homedir := [47, 104], shell := [47],
    rundir := [47, 114, 117, 110, 47, 117], manage_rdir := false, sessions := [],
    srv_pid := -1, start_pid := -1, term_pid := -1, srv_wait := true,
    srv_pending := false, pipe_queued := false, kill_tried := false, repopulate := true,
    timer_armed := false, dirfd := -1, userpipe := -1, srvstr := [] }

/-- An environment instance in which every call succeeds; the peer of every connection
has effective UID 1001 and forks return PID 4242 (service manager) and 4243 (boot helper). -/
def env0 : Env :=
  { proto := proto0, cdata := cdata0, login_new := login0,
    get_peer_euid := fun _ => some 1001,
    getpwuid := fun u =>
      some { pw_uid := u, pw_gid := u, pw_name := [117], pw_dir := [47, 104], pw_shell := [47] },
    cfg_expand_rundir := fun _ _ => (true, [47, 114, 117, 110, 47, 117]),
    send_ok := fun _ _ => true, linger_open := false, linger_isreg := fun _ => false,
    timer_create_ok := fun _ => true, timer_settime_ok := fun _ => true,
    rundir_make := fun _ _ _ => true, dir_make_at := fun _ => 9,
    login_dir_setup_ok := fun _ => true, mkfifoat_ok := fun _ => true,
    fchownat_ready_ok := fun _ => true, openat_ready := fun _ => 10,
    fork := fun _ => 4242, boot_fork := fun _ => 4243 }

/-- A login whose service manager (PID 4242) is up and whose boot helper (PID 4243) is
running, with two sessions (descriptors 7 and 8) waiting and the login timer armed. -/
def login_booting : login :=
  { login0 with
    sessions := [{ fd := 7 }, { fd := 8 }], srv_pid := 4242, start_pid := 4243,
    repopulate := false, timer_armed := true, dirfd := 9 }

/-- A login with one session (descriptor 7) whose rundir is the four bytes "/run". -/
def login_run : login :=
  { login0 with
    sessions := [{ fd := 7 }], rundir := [47, 114, 117, 110], repopulate := false }

/-- A login whose service manager (PID 4242) has booted, with one session (descriptor 7). -/
def login_ready : login :=
  { login0 with
    sessions := [{ fd := 7 }], srv_pid := 4242, srv_wait := false, repopulate := false,
    dirfd := 9 }

/-- A login whose last session closed: SIGTERM was sent to its service manager (PID 4242,
now `term_pid`) and the kill timer is armed. -/
def login_dying : login :=
  { login0 with
    term_pid := 4242, repopulate := false, timer_armed := true, dirfd := 9 }

/-- A poll list: signal pipe 3, control socket 4, connections 7 and 8. -/
def fds0 : List pollfd :=
  [{ fd := 3, events := 1, revents := 0 }, { fd := 4, events := 1, revents := 0 },
   { fd := 7, events := 17, revents := 0 }, { fd := 8, events := 17, revents := 0 }]

/-- The environment `env0` with a root peer (effective UID 0) on every connection. -/
def env_root : Env :=
  { env0 with get_peer_euid := fun _ => some 0 }

/-- The environment of a later moment for a root peer: the next fork returns PID 4300, the
next login directory descriptor is 11 and the next ready pipe 12. -/
def env_root2 : Env :=
  { env0 with
    get_peer_euid := fun _ => some 0, fork := fun _ => 4300, dir_make_at := fun _ => 11,
    openat_ready := fun _ => 12 }

/-- The environment `env0` with peer UID 1000 and a password database whose entries have
the relative home directory "h". -/
def env_relhome : Env :=
  { env0 with
    get_peer_euid := fun _ => some 1000,
    getpwuid := fun u =>
      some { pw_uid := u, pw_gid := u, pw_name := [117], pw_dir := [104], pw_shell := [47] } }

/-- The environment `env0` in which `fork` fails in `srv_start`. -/
def env_nofork : Env :=
  { env0 with fork := fun _ => -1 }

/-- A poll list: signal pipe 3, control socket 4, and connection 7 with input pending. -/
def fds_in7 : List pollfd :=
  [{ fd := 3, events := 1, revents := 0 }, { fd := 4, events := 1, revents := 0 },
   { fd := 7, events := 17, revents := 1 }]

/-- A session record for the exec vectors: home "/h", rundir "/r", uid and gid "7". -/
def Dinit.sess0 : Dinit.session :=
  { homedir := [47, 104], rundir := [47, 114], uids := [55], gids := [55] }

/-- The environment `env0` with peer UID 1000 on every connection. -/
def env_peer1000 : Env :=
  { env0 with get_peer_euid := fun _ => some 1000 }

/-- A login whose ready pipe (descriptor 10) waits to be registered in the poll list. -/
def login_queued : login :=
  { login0 with
    sessions := [{ fd := 7 }], srv_pid := 4242, repopulate := false, dirfd := 9,
    userpipe := 10, pipe_queued := true }

/-- A poll list with a terminated connection: signal pipe 3, control socket 4, an entry
marked -1, and connection 7. -/
def fds_gap : List pollfd :=
  [{ fd := 3, events := 1, revents := 0 }, { fd := 4, events := 1, revents := 0 },
   { fd := -1, events := 17, revents := 0 }, { fd := 7, events := 17, revents := 0 }]

/-- A run of the event loop, step 1: peer 1001 sends MSG_START(1001) on connection 7; the
service manager 4242 is started and its ready pipe 10 queued. -/
def run_s1 : Bool × List login × List pollfd × List Event :=
  fd_handle_conn env0 2 (.msg 16022) [] fds_in7

/-- Step 2: compaction registers the ready pipe: the poll list is 3, 4, 10, 7 and
`npipes` is 1. -/
def run_s2 : List login × List pollfd × Nat :=
  do_compact run_s1.2.1 run_s1.2.2.1 0

/-- Step 3: connection 7 hangs up before the service manager is ready; SIGTERM is sent to
4242, which becomes `term_pid`. -/
def run_s3 : Bool × List login × List pollfd × List Event :=
  fd_handle_conn env0 3 .eagain run_s2.1 (poll [0, 0, 0, POLLHUP] run_s2.2.1)

/-- Step 4: compaction drops the entry of connection 7. -/
def run_s4 : List login × List pollfd × Nat :=
  do_compact run_s3.2.1 run_s3.2.2.1 run_s2.2.2

/-- Step 5: a new connection, descriptor 8, is accepted. -/
def run_s5 : List pollfd :=
  sock_handle_conn [8] (poll [0, POLLIN, 0] run_s4.2.1)

/-- Step 6: MSG_START(1001) arrives on connection 8 while 4242 is still dying:
`srv_pending` is set.  Compaction follows and changes nothing. -/
def run_s6 : List login × List pollfd × Nat :=
  do_compact (fd_handle_conn env0 3 (.msg 16022) run_s4.1 (poll [0, 0, 0, POLLIN] run_s5)).2.1
    (fd_handle_conn env0 3 (.msg 16022) run_s4.1 (poll [0, 0, 0, POLLIN] run_s5)).2.2.1
    run_s4.2.2

/-- Step 7: 4242 has died; `poll` reports the signal pipe and a hang-up on the ready pipe
10, and the SIGCHLD is handled first: `srv_reaper` starts the pending service manager
(PID 4300, ready pipe 12). -/
def run_s7 : Bool × List login × List pollfd × List Event :=
  srv_reaper env_root2 4242 run_s6.1 (poll [POLLIN, 0, POLLHUP, 0] run_s6.2.1)

/-- The environment `env_root` with a rundir template that expands to "/r/" followed by
the UID: "/r/99" for UID 99 and "/r/1000" for the other UID used here. -/
def env_rd : Env :=
  { env_root with
    cfg_expand_rundir := fun u _ =>
      (true, if u = 99 then [47, 114, 47, 57, 57] else [47, 114, 47, 49, 48, 48, 48]) }

/-- The environment `env_root2` with the rundir template of `env_rd`. -/
def env_rd2 : Env :=
  { env_root2 with
    cfg_expand_rundir := fun u _ =>
      (true, if u = 99 then [47, 114, 47, 57, 57] else [47, 114, 47, 49, 48, 48, 48]) }

/-- The login table after a root peer has sent MSG_START(1000), word 16006, and then
MSG_START(99), word 1590, on connection 7. -/
def dup_rd : List login :=
  (handle_read env_rd2 7 (.msg 1590) (handle_read env_rd 7 (.msg 16006) []).2.1).2.1

/-- A second run of the event loop, step 1: a root peer sends MSG_START(1000) on
connection 7; the service manager 4242 is started and its ready pipe 10 queued. -/
def dup_s1 : Bool × List login × List pollfd × List Event :=
  fd_handle_conn env_root 2 (.msg 16006) [] fds_in7

/-- Step 2: compaction registers the ready pipe: the poll list is 3, 4, 10, 7. -/
def dup_s2 : List login × List pollfd × Nat :=
  do_compact dup_s1.2.1 dup_s1.2.2.1 0

/-- Step 3: the same peer sends MSG_START(1001) on connection 7; the service manager 4300
is started and its ready pipe 12 queued. -/
def dup_s3 : Bool × List login × List pollfd × List Event :=
  fd_handle_conn env_root2 3 (.msg 16022) dup_s2.1 (poll [0, 0, 0, POLLIN] dup_s2.2.1)

/-- Step 4: compaction registers the second ready pipe: the poll list is 3, 4, 12, 10, 7. -/
def dup_s4 : List login × List pollfd × Nat :=
  do_compact dup_s3.2.1 dup_s3.2.2.1 dup_s2.2.2

/-- Step 5: connection 7 hangs up and is terminated. -/
def dup_s5 : Bool × List login × List pollfd × List Event :=
  fd_handle_conn env_root2 4 .eagain dup_s4.1 (poll [0, 0, 0, 0, POLLHUP] dup_s4.2.1)

/-- Step 6: compaction drops the entry of connection 7: the poll list is 3, 4, 12, 10. -/
def dup_s6 : List login × List pollfd × Nat :=
  do_compact dup_s5.2.1 dup_s5.2.2.1 dup_s4.2.2

/-- Step 7: the service manager 4300 of login 1001 dies before signalling readiness and is
reaped. -/
def dup_s7 : Bool × List login × List pollfd × List Event :=
  srv_reaper env_root2 4300 dup_s6.1 (poll [POLLIN, 0, 0, 0] dup_s6.2.1)


/-! ## C1: credential check of MSG_START -/

/-- C1: when the peer's effective UID `p` is neither 0 nor the UID in the payload of a
MSG_START word, `handle_read` sends MSG_ERR on that connection, returns false, and the
login table is the one it started from (no login created or repopulated, no session
appended).  When `p` is the payload UID or 0, the credential check lets the request
through: whatever login `login_populate` yields is returned with a session for this
connection appended, unless it already has one. -/
theorem C1_start_credentials (env : Env) (fd : Int) (msg uid p : Nat) (logins : List login)
    (htag : msg &&& env.proto.MSG_TYPE_MASK = env.proto.MSG_START)
    (hpay : msg >>> env.proto.MSG_TYPE_BITS = uid)
    (hpeer : env.get_peer_euid fd = some p) :
    (p ≠ 0 → p ≠ uid →
      handle_read env fd (.msg msg) logins
        = (false, logins, [Event.send fd env.proto.MSG_ERR])) ∧
    (p = uid ∨ p = 0 →
      ∀ pre l post logins1, login_populate env uid logins = (some (pre, l, post), logins1) →
        l.sessions.any (fun s => s.fd == fd) = false →
        handle_session_new env fd uid logins
          = (some (pre, { l with sessions := l.sessions ++ [{ fd := fd }] }, post),
             pre ++ { l with sessions := l.sessions ++ [{ fd := fd }] } :: post)) := by
  constructor
  · intro h0 hne
    have hne2 : ¬ uid = p := fun h => hne h.symm
    simp only [handle_read, htag, hpay, handle_session_new, hpeer, msg_send]
    simp [h0, hne2]
  · intro hp pre l post logins1 hpop hdup
    have hc : ¬ (p ≠ 0 ∧ uid ≠ p) := by
      rcases hp with h | h
      · intro hh; exact hh.2 h.symm
      · intro hh; exact hh.1 h
    simp only [handle_session_new, hpeer, hpop]
    simp [hc, hdup]

/-- C1 at a concrete input: peer 1001 sends MSG_START(1000) on descriptor 7. -/
theorem C1_start_credentials_witness :
    handle_read env0 7 (.msg 16006) [] = (false, [], [Event.send 7 7]) :=
  (C1_start_credentials env0 7 16006 1000 1001 [] (by decide) (by decide) rfl).1
    (by decide) (by decide)

/-! ## C2: reply and start decision of an accepted MSG_START -/

theorem started_append (a b : List Event) : started (a ++ b) = started a ++ started b := by
  simp [started, List.filterMap_append]

theorem started_nil : started [] = [] := rfl

theorem started_cons_start (u : Nat) (ev : List Event) :
    started (Event.srv_start u :: ev) = u :: started ev := rfl

theorem started_cons_send (fd : Int) (m : Nat) (ev : List Event) :
    started (Event.send fd m :: ev) = started ev := rfl

theorem srv_boot_events (env : Env) (l : login) : (srv_boot env l).2.2 = [] := by
  unfold srv_boot; split <;> rfl

theorem started_arm_timer (env : Env) (l : login) (t : Nat) :
    started (arm_timer env l t).2.2 = [] := by
  unfold arm_timer
  split
  · rfl
  · split <;> rfl

theorem started_srv_start_dir (env : Env) (l : login) :
    match srv_start_dir env l with
    | .ok x => started x.2 = []
    | .error x => started x.2 = [] := by
  unfold srv_start_dir
  by_cases h1 : env.cdata.disable = true <;>
  by_cases h2 : env.dir_make_at l.uid < 0 <;>
  by_cases h3 : env.login_dir_setup_ok l.uid = false <;>
  by_cases h4 : env.mkfifoat_ok l.uid = false <;>
  by_cases h5 : env.fchownat_ready_ok l.uid = false <;>
  by_cases h6 : env.openat_ready l.uid < 0 <;>
  simp [h1, h2, h3, h4, h5, h6, remove_sdir, started]

/-- Every call of `srv_start` is recorded once, under the login's uid. -/
theorem started_srv_start (env : Env) (l : login) :
    started (srv_start env l).2.2 = [l.uid] := by
  have hd := started_srv_start_dir env { l with srv_wait := true }
  have ht := fun l1 => started_arm_timer env l1 env.cdata.login_timeout
  unfold srv_start
  simp only []
  split
  · rfl
  · split
    · rename_i l1 e1 h1
      rw [h1] at hd
      simp only [] at hd
      simp [started_append, started_cons_start, started_nil, hd]
    · rename_i l1 e1 h1
      rw [h1] at hd
      simp only [] at hd
      by_cases c1 : env.cdata.login_timeout > 0 <;>
      by_cases c2 : (arm_timer env l1 env.cdata.login_timeout).1 = false <;>
      by_cases c3 : env.fork l.uid < 0 <;>
      by_cases c4 : (arm_timer env l1 env.cdata.login_timeout).2.1.userpipe < 0 <;>
      by_cases c5 : l1.userpipe < 0 <;>
      simp [c1, c2, c3, c4, c5, started_append, started_cons_start, started_nil, hd, ht,
        srv_boot_events]

/-- C2: for a MSG_START that `handle_session_new` accepted with login `lgn`, the reply
and the start decision depend only on `lgn`'s `srv_wait`, `srv_pid` and `term_pid`.
With `srv_wait` false the only action is sending MSG_OK_DONE with payload `export_dbus`
and the login is untouched.  With `srv_wait` true: if `srv_pid = -1` and `term_pid = -1`
then `srv_start` is entered exactly once and, when it succeeds, MSG_OK_WAIT is sent after
it; if `srv_pid = -1` and `term_pid ≠ -1` the only change is `srv_pending := true` and the
only action is sending MSG_OK_WAIT; if `srv_pid ≠ -1` nothing changes and the only action
is sending MSG_OK_WAIT. -/
theorem C2_start_reply (env : Env) (fd : Int) (msg : Nat)
    (logins pre post logins1 : List login) (lgn : login)
    (htag : msg &&& env.proto.MSG_TYPE_MASK = env.proto.MSG_START)
    (hacc : handle_session_new env fd (msg >>> env.proto.MSG_TYPE_BITS) logins
      = (some (pre, lgn, post), logins1)) :
    (lgn.srv_wait = false →
      (handle_read env fd (.msg msg) logins).2.1 = pre ++ lgn :: post ∧
      (handle_read env fd (.msg msg) logins).2.2 = [Event.send fd
        (MSG_ENCODE_AUX env.proto env.cdata.export_dbus.toNat env.proto.MSG_OK_DONE)]) ∧
    (lgn.srv_wait = true → lgn.srv_pid = -1 → lgn.term_pid = -1 →
      started (handle_read env fd (.msg msg) logins).2.2 = [lgn.uid] ∧
      ((srv_start env lgn).1 = true →
        (handle_read env fd (.msg msg) logins).2.1 = pre ++ (srv_start env lgn).2.1 :: post ∧
        (handle_read env fd (.msg msg) logins).2.2
          = (srv_start env lgn).2.2 ++ [Event.send fd env.proto.MSG_OK_WAIT])) ∧
    (lgn.srv_wait = true → lgn.srv_pid = -1 → lgn.term_pid ≠ -1 →
      (handle_read env fd (.msg msg) logins).2.1
        = pre ++ { lgn with srv_pending := true } :: post ∧
      (handle_read env fd (.msg msg) logins).2.2 = [Event.send fd env.proto.MSG_OK_WAIT]) ∧
    (lgn.srv_wait = true → lgn.srv_pid ≠ -1 →
      (handle_read env fd (.msg msg) logins).2.1 = pre ++ lgn :: post ∧
      (handle_read env fd (.msg msg) logins).2.2 = [Event.send fd env.proto.MSG_OK_WAIT]) := by
  have hr : handle_read env fd (.msg msg) logins = handle_start env fd pre lgn post := by
    simp only [handle_read, htag, hacc]
    simp
  have hs : ∀ m, (msg_send env fd m).2 = [Event.send fd m] := by
    intro m; unfold msg_send; split <;> rfl
  rw [hr]
  refine ⟨?_, ?_, ?_, ?_⟩
  · intro hw
    simp [handle_start, hw, hs]
  · intro hw hp ht
    have hst := started_srv_start env lgn
    constructor
    · by_cases hok : (srv_start env lgn).1 = false
      · simp [handle_start, hw, hp, ht, hok, hst]
      · simp [handle_start, hw, hp, ht, hok, hs, started_append, hst, started_cons_send,
          started_nil]
    · intro hok
      simp [handle_start, hw, hp, ht, hok, hs]
  · intro hw hp ht
    simp [handle_start, hw, hp, ht, hs]
  · intro hw hp
    simp [handle_start, hw, hp, hs]

/-- C2 at a concrete input: peer 1001 sends MSG_START(1001) on descriptor 7 to a daemon
with no logins; the service manager is started once and MSG_OK_WAIT (word 1) follows. -/
theorem C2_start_reply_witness :
    started (handle_read env0 7 (.msg 16022) []).2.2 = [1001] ∧
    (handle_read env0 7 (.msg 16022) []).2.2 = [Event.srv_start 1001,
      Event.arm_timer 1001 60, Event.send 7 1] :=
  ⟨((C2_start_reply env0 7 16022 [] [] []
      [{ login0 with uid := 1001, gid := 1001, sessions := [{ fd := 7 }], repopulate := false }]
      { login0 with uid := 1001, gid := 1001, sessions := [{ fd := 7 }], repopulate := false }
      (by decide) (by decide)).2.1 (by decide) (by decide) (by decide)).1,
   by decide⟩

/-! ## C3: reaping the boot helper -/

/-- `srv_reaper` walks past logins that do not record `pid`. -/
theorem srv_reaper_skip (env : Env) (pid : Int) (fds : List pollfd) (pre : List login)
    (hpre : ∀ l ∈ pre, not_child pid l) (rest : List login) :
    srv_reaper env pid (pre ++ rest) fds
      = ((srv_reaper env pid rest fds).1, pre ++ (srv_reaper env pid rest fds).2.1,
         (srv_reaper env pid rest fds).2.2.1, (srv_reaper env pid rest fds).2.2.2) := by
  induction pre with
  | nil => simp
  | cons l pre ih =>
    have hl := hpre l (List.mem_cons_self _ _)
    have ih2 := ih (fun x hx => hpre x (List.mem_cons_of_mem _ hx))
    obtain ⟨h1, h2, h3⟩ := hl
    simp only [List.cons_append, srv_reaper, h1, h2, h3, if_false]
    show ((srv_reaper env pid (pre ++ rest) fds).1, l :: (srv_reaper env pid (pre ++ rest) fds).2.1,
      (srv_reaper env pid (pre ++ rest) fds).2.2.1, (srv_reaper env pid (pre ++ rest) fds).2.2.2) = _
    rw [ih2]

/-- When no login records `pid`, `srv_reaper` does nothing and returns true. -/
theorem srv_reaper_none (env : Env) (pid : Int) (fds : List pollfd) (ls : List login)
    (h : ∀ l ∈ ls, not_child pid l) :
    srv_reaper env pid ls fds = (true, ls, fds, []) := by
  have := srv_reaper_skip env pid fds ls h []
  simpa [srv_reaper] using this

/-- C3: when `pid` is the `start_pid` of a login (and the PID of no other recorded
child), `srv_reaper pid` returns true, sends MSG_OK_DONE with payload `export_dbus` once
to each session of that login in session order, deletes the timer if it was armed, and
leaves the login with `timer_armed = false`, `start_pid = -1`, `srv_wait = false` and
every other field, in particular `srv_pid`, `term_pid` and the sessions, as before; the
other logins and the poll list are untouched. -/
theorem C3_reap_start_pid (env : Env) (pid : Int) (fds : List pollfd)
    (pre post : List login) (lgn : login)
    (hpid : pid = lgn.start_pid) (hsrv : pid ≠ lgn.srv_pid)
    (hpre : ∀ l ∈ pre, not_child pid l) (hpost : ∀ l ∈ post, not_child pid l) :
    srv_reaper env pid (pre ++ lgn :: post) fds
      = (true,
         pre ++ { lgn with timer_armed := false, start_pid := -1, srv_wait := false } :: post,
         fds,
         lgn.sessions.map (fun s => Event.send s.fd
            (MSG_ENCODE_AUX env.proto env.cdata.export_dbus.toNat env.proto.MSG_OK_DONE))
          ++ (if lgn.timer_armed then [Event.timer_delete lgn.uid] else [])) := by
  rw [srv_reaper_skip env pid fds pre hpre]
  have hn := srv_reaper_none env pid fds post hpost
  have hsrv2 : ¬ lgn.start_pid = lgn.srv_pid := by rw [← hpid]; exact hsrv
  cases ha : lgn.timer_armed <;>
    simp [srv_reaper, hpid, hsrv2, hn, disarm_timer, ha] <;>
    (rw [← hpid, hn]; simp [← ha])

/-- C3 at a concrete input: the boot helper 4243 of `login_booting` is reaped; both
sessions get the word 18 (MSG_OK_DONE with the DBus flag) and the timer is deleted. -/
theorem C3_reap_start_pid_witness :
    srv_reaper env0 4243 [login_booting] []
      = (true, [{ login_booting with timer_armed := false, start_pid := -1, srv_wait := false }],
         [], [Event.send 7 18, Event.send 8 18, Event.timer_delete 1000]) :=
  (C3_reap_start_pid env0 4243 [] [] [] login_booting rfl (by decide)
    (by simp) (by simp)).trans (by decide)

/-! ## The codec: facts shared by C4 to C7 -/

/-- A payload below `2 ^ (32 - MSG_TYPE_BITS)` and a tag under the mask pack without
loss: the word is `tag + payload * 2 ^ MSG_TYPE_BITS` and both parts read back. -/
theorem encode_decode (P : protocol) (hwf : P.wf) (v t : Nat) (ht : t ≤ P.MSG_TYPE_MASK)
    (hv : v < 2 ^ (32 - P.MSG_TYPE_BITS)) :
    MSG_ENCODE_AUX P v t = t + v * 2 ^ P.MSG_TYPE_BITS ∧
    MSG_ENCODE_AUX P v t &&& P.MSG_TYPE_MASK = t ∧
    MSG_ENCODE_AUX P v t >>> P.MSG_TYPE_BITS = v := by
  obtain ⟨hb, hm, _, _⟩ := hwf
  have hpos : 0 < 2 ^ P.MSG_TYPE_BITS := Nat.two_pow_pos _
  have hmask : P.MSG_TYPE_MASK = 2 ^ P.MSG_TYPE_BITS - 1 := by omega
  have htlt : t < 2 ^ P.MSG_TYPE_BITS := by omega
  have h32 : 2 ^ (32 - P.MSG_TYPE_BITS) * 2 ^ P.MSG_TYPE_BITS = 2 ^ 32 := by
    rw [← pow_add]; congr 1; omega
  have hle : 2 ^ (32 - P.MSG_TYPE_BITS) ≤ 2 ^ 32 :=
    Nat.pow_le_pow_right (by decide) (Nat.sub_le _ _)
  have hvU : v < 2 ^ 32 := lt_of_lt_of_le hv hle
  have key : t ||| (v <<< P.MSG_TYPE_BITS) = 2 ^ P.MSG_TYPE_BITS * v + t := by
    rw [Nat.shiftLeft_eq, Nat.lor_comm, Nat.mul_comm, ← Nat.mul_add_lt_is_or htlt]
  have hlt : 2 ^ P.MSG_TYPE_BITS * v + t < 2 ^ 32 := by
    have h1 : (v + 1) * 2 ^ P.MSG_TYPE_BITS ≤ 2 ^ (32 - P.MSG_TYPE_BITS) * 2 ^ P.MSG_TYPE_BITS :=
      Nat.mul_le_mul_right _ hv
    rw [h32] at h1
    have h2 : (v + 1) * 2 ^ P.MSG_TYPE_BITS
        = 2 ^ P.MSG_TYPE_BITS * v + 2 ^ P.MSG_TYPE_BITS := by ring
    omega
  have hword : MSG_ENCODE_AUX P v t = t + v * 2 ^ P.MSG_TYPE_BITS := by
    unfold MSG_ENCODE_AUX UINT
    rw [Nat.mod_eq_of_lt hvU, key, Nat.mod_eq_of_lt hlt]
    ring
  refine ⟨hword, ?_, ?_⟩
  · rw [hword, hmask, Nat.and_pow_two_sub_one_eq_mod, Nat.add_mul_mod_self_right,
      Nat.mod_eq_of_lt htlt]
  · rw [hword, Nat.shiftRight_eq_div_pow, Nat.add_mul_div_right _ _ hpos,
      Nat.div_eq_of_lt htlt, Nat.zero_add]

/-- What the two fields of a packed word read back as, for any payload: the tag is kept,
the payload is kept modulo `2 ^ (32 - MSG_TYPE_BITS)` (its high bits are shifted out of
the 32-bit word). -/
theorem encode_fields (P : protocol) (hwf : P.wf) (v t : Nat) (ht : t ≤ P.MSG_TYPE_MASK) :
    MSG_ENCODE_AUX P v t &&& P.MSG_TYPE_MASK = t ∧
    MSG_ENCODE_AUX P v t >>> P.MSG_TYPE_BITS = v % 2 ^ (32 - P.MSG_TYPE_BITS) := by
  obtain ⟨hb, hm, _, _⟩ := hwf
  have hpos : 0 < 2 ^ P.MSG_TYPE_BITS := Nat.two_pow_pos _
  have hmask : P.MSG_TYPE_MASK = 2 ^ P.MSG_TYPE_BITS - 1 := by omega
  have htlt : t < 2 ^ P.MSG_TYPE_BITS := by omega
  have h32 : 2 ^ 32 = 2 ^ P.MSG_TYPE_BITS * 2 ^ (32 - P.MSG_TYPE_BITS) := by
    rw [← pow_add]; congr 1; omega
  have key : t ||| ((v % 2 ^ 32) <<< P.MSG_TYPE_BITS)
      = 2 ^ P.MSG_TYPE_BITS * (v % 2 ^ 32) + t := by
    rw [Nat.shiftLeft_eq, Nat.lor_comm, Nat.mul_comm, ← Nat.mul_add_lt_is_or htlt]
  have hword : MSG_ENCODE_AUX P v t
      = (2 ^ P.MSG_TYPE_BITS * (v % 2 ^ 32) + t) % 2 ^ 32 := by
    unfold MSG_ENCODE_AUX UINT
    rw [key]
  constructor
  · rw [hword, hmask, Nat.and_pow_two_sub_one_eq_mod,
      Nat.mod_mod_of_dvd _ (Nat.pow_dvd_pow 2 hb), Nat.mul_add_mod, Nat.mod_eq_of_lt htlt]
  · rw [hword, Nat.shiftRight_eq_div_pow]
    conv_lhs => rw [h32]
    rw [Nat.mod_mul_right_div_self, Nat.mul_add_div hpos, Nat.div_eq_of_lt htlt, Nat.add_zero,
      Nat.mod_mod_of_dvd _ (dvd_mul_left _ _)]

/-- Membership of each tag in `tags`, and so its bound under the mask. -/
theorem tag_le_mask (P : protocol) (hwf : P.wf) :
    P.MSG_OK_WAIT ≤ P.MSG_TYPE_MASK ∧ P.MSG_OK_DONE ≤ P.MSG_TYPE_MASK ∧
    P.MSG_REQ_RLEN ≤ P.MSG_TYPE_MASK ∧ P.MSG_REQ_RDATA ≤ P.MSG_TYPE_MASK ∧
    P.MSG_DATA ≤ P.MSG_TYPE_MASK ∧ P.MSG_START ≤ P.MSG_TYPE_MASK ∧
    P.MSG_ERR ≤ P.MSG_TYPE_MASK := by
  obtain ⟨_, _, h, _⟩ := hwf
  refine ⟨?_, ?_, ?_, ?_, ?_, ?_, ?_⟩ <;> apply h <;> simp [protocol.tags]

/-- The byte string read back from its little-endian value. -/
theorem le32toh_lt (bs : List Nat) (h : ∀ c ∈ bs, c < 256) : le32toh bs < 256 ^ bs.length := by
  induction bs with
  | nil => simp [le32toh]
  | cons b bs ih =>
    have hb := h b (List.mem_cons_self _ _)
    have := ih (fun c hc => h c (List.mem_cons_of_mem _ hc))
    simp only [le32toh, List.length_cons, pow_succ]
    omega

/-- The bytes of a string are read back from its little-endian value. -/
theorem payload_bytes_le32toh (bs : List Nat) (h : ∀ c ∈ bs, c < 256) :
    payload_bytes (le32toh bs) bs.length = bs := by
  induction bs with
  | nil => rfl
  | cons b bs ih =>
    have hb := h b (List.mem_cons_self _ _)
    have := ih (fun c hc => h c (List.mem_cons_of_mem _ hc))
    simp only [le32toh, List.length_cons, payload_bytes]
    have h1 : (b + 256 * le32toh bs) % 256 = b := by omega
    have h2 : (b + 256 * le32toh bs) / 256 = le32toh bs := by omega
    rw [h1, h2, this]

/-- What `handle_read` does with a MSG_REQ_RDATA word on a connection whose login is
`lgn`: MSG_ERR when the requested remainder is 0 or exceeds the length of `rundir`,
otherwise a MSG_DATA word packing the next `MSG_SBYTES` bytes from offset `len - R`. -/
theorem handle_read_rdata (env : Env) (hwf : env.proto.wf) (fd : Int) (msg : Nat)
    (logins : List login) (lgn : login)
    (htag : msg &&& env.proto.MSG_TYPE_MASK = env.proto.MSG_REQ_RDATA)
    (hlogin : get_login fd logins = some lgn) :
    handle_read env fd (.msg msg) logins
      = if msg >>> env.proto.MSG_TYPE_BITS = 0 ∨
            lgn.rundir.length < msg >>> env.proto.MSG_TYPE_BITS then
          ((msg_send env fd env.proto.MSG_ERR).1, logins, [Event.send fd env.proto.MSG_ERR])
        else
          ((msg_send env fd (MSG_ENCODE env.proto (le32toh
              ((lgn.rundir.drop (lgn.rundir.length - msg >>> env.proto.MSG_TYPE_BITS)).take
                (MSG_SBYTES env.proto (msg >>> env.proto.MSG_TYPE_BITS)))))).1,
           logins,
           [Event.send fd (MSG_ENCODE env.proto (le32toh
              ((lgn.rundir.drop (lgn.rundir.length - msg >>> env.proto.MSG_TYPE_BITS)).take
                (MSG_SBYTES env.proto (msg >>> env.proto.MSG_TYPE_BITS)))))]) := by
  have hs : ∀ m, (msg_send env fd m).2 = [Event.send fd m] := by
    intro m; unfold msg_send; split <;> rfl
  obtain ⟨_, _, _, hnd⟩ := hwf
  simp [protocol.tags] at hnd
  have h1 : ¬ env.proto.MSG_REQ_RDATA = env.proto.MSG_START := by tauto
  have h2 : ¬ env.proto.MSG_REQ_RDATA = env.proto.MSG_REQ_RLEN := by
    intro h; exact hnd.2.2.1.1 h.symm
  simp only [handle_read, htag, h1, h2, if_false, hlogin, hs]
  by_cases c1 : msg >>> env.proto.MSG_TYPE_BITS = 0
  · simp [c1]
  · by_cases c2 : lgn.rundir.length < msg >>> env.proto.MSG_TYPE_BITS
    · simp [c1, c2]
    · simp [c1, c2]

/-- A MSG_DATA reply whose payload is a chunk of at most `SBYTES_MAX` bytes, when such a
chunk fits the payload field: its tag is MSG_DATA, its payload is the chunk's value, and
it is not the MSG_ERR word. -/
theorem data_reply (P : protocol) (hwf : P.wf) (hcap : 8 * P.SBYTES_MAX + P.MSG_TYPE_BITS ≤ 32)
    (bs : List Nat) (hbs : ∀ c ∈ bs, c < 256) (hlen : bs.length ≤ P.SBYTES_MAX) :
    MSG_ENCODE P (le32toh bs) &&& P.MSG_TYPE_MASK = P.MSG_DATA ∧
    MSG_ENCODE P (le32toh bs) >>> P.MSG_TYPE_BITS = le32toh bs ∧
    MSG_ENCODE P (le32toh bs) ≠ P.MSG_ERR := by
  have hv : le32toh bs < 2 ^ (32 - P.MSG_TYPE_BITS) := by
    have h1 := le32toh_lt bs hbs
    have h2 : (256 : Nat) ^ bs.length = 2 ^ (8 * bs.length) := by
      rw [show (256 : Nat) = 2 ^ 8 by norm_num, ← pow_mul]
    have h3 : 2 ^ (8 * bs.length) ≤ 2 ^ (32 - P.MSG_TYPE_BITS) :=
      Nat.pow_le_pow_right (by decide) (by omega)
    omega
  have ht := tag_le_mask P hwf
  obtain ⟨hw, ha, hsft⟩ := encode_decode P hwf (le32toh bs) P.MSG_DATA ht.2.2.2.2.1 hv
  refine ⟨ha, hsft, ?_⟩
  intro he
  have hnd := hwf.2.2.2
  simp [protocol.tags] at hnd
  have hmask : P.MSG_TYPE_MASK = 2 ^ P.MSG_TYPE_BITS - 1 := by have := hwf.2.1; omega
  have hpos : 0 < 2 ^ P.MSG_TYPE_BITS := Nat.two_pow_pos _
  have herr : P.MSG_ERR &&& P.MSG_TYPE_MASK = P.MSG_ERR := by
    rw [hmask, Nat.and_pow_two_sub_one_eq_mod]
    exact Nat.mod_eq_of_lt (by have := ht.2.2.2.2.2.2; omega)
  have he2 : MSG_ENCODE_AUX P (le32toh bs) P.MSG_DATA = P.MSG_ERR := he
  have : P.MSG_DATA = P.MSG_ERR :=
    calc P.MSG_DATA = MSG_ENCODE_AUX P (le32toh bs) P.MSG_DATA &&& P.MSG_TYPE_MASK := ha.symm
      _ = P.MSG_ERR &&& P.MSG_TYPE_MASK := by rw [he2]
      _ = P.MSG_ERR := herr
  exact hnd.2.2.2.2.1.2 this

/-- `msg_send` of the MSG_ERR word returns false whether or not the send succeeds. -/
theorem msg_send_err (env : Env) (fd : Int) :
    msg_send env fd env.proto.MSG_ERR = (false, [Event.send fd env.proto.MSG_ERR]) := by
  unfold msg_send
  split <;> simp

/-- The bounds of MSG_REQ_RDATA for the login `get_login` resolves the connection to (the
first login of the table holding a session for the descriptor): with `rundir` of length
`len`, a MSG_REQ_RDATA word with remainder `R` is answered with MSG_ERR and `handle_read`
returns false (the connection is terminated) whenever `R = 0` or `R > len`; for
`1 ≤ R ≤ len` the reply is a word with tag MSG_DATA, which is not the MSG_ERR word.  The
login table is unchanged either way. -/
theorem rdata_bounds_of_get_login (env : Env) (hwf : env.proto.wf) (fd : Int) (msg : Nat)
    (logins : List login) (lgn : login)
    (htag : msg &&& env.proto.MSG_TYPE_MASK = env.proto.MSG_REQ_RDATA)
    (hlogin : get_login fd logins = some lgn) :
    (msg >>> env.proto.MSG_TYPE_BITS = 0 ∨
        lgn.rundir.length < msg >>> env.proto.MSG_TYPE_BITS →
      handle_read env fd (.msg msg) logins
        = (false, logins, [Event.send fd env.proto.MSG_ERR])) ∧
    (1 ≤ msg >>> env.proto.MSG_TYPE_BITS →
        msg >>> env.proto.MSG_TYPE_BITS ≤ lgn.rundir.length →
      ∃ w, handle_read env fd (.msg msg) logins
          = ((msg_send env fd w).1, logins, [Event.send fd w]) ∧
        w &&& env.proto.MSG_TYPE_MASK = env.proto.MSG_DATA ∧ w ≠ env.proto.MSG_ERR) := by
  have hrd := handle_read_rdata env hwf fd msg logins lgn htag hlogin
  constructor
  · intro h
    rw [hrd, if_pos h, msg_send_err]
  · intro h1 h2
    have hc : ¬ (msg >>> env.proto.MSG_TYPE_BITS = 0 ∨
        lgn.rundir.length < msg >>> env.proto.MSG_TYPE_BITS) := by omega
    rw [if_neg hc] at hrd
    refine ⟨_, hrd, ?_⟩
    have ht := tag_le_mask env.proto hwf
    have hf := (encode_fields env.proto hwf (le32toh
      ((lgn.rundir.drop (lgn.rundir.length - msg >>> env.proto.MSG_TYPE_BITS)).take
        (MSG_SBYTES env.proto (msg >>> env.proto.MSG_TYPE_BITS)))) env.proto.MSG_DATA
      ht.2.2.2.2.1).1
    refine ⟨hf, ?_⟩
    intro he
    have hnd := hwf.2.2.2
    simp [protocol.tags] at hnd
    have hmask : env.proto.MSG_TYPE_MASK = 2 ^ env.proto.MSG_TYPE_BITS - 1 := by
      have := hwf.2.1; omega
    have hpos : 0 < 2 ^ env.proto.MSG_TYPE_BITS := Nat.two_pow_pos _
    have herr : env.proto.MSG_ERR &&& env.proto.MSG_TYPE_MASK = env.proto.MSG_ERR := by
      rw [hmask, Nat.and_pow_two_sub_one_eq_mod]
      exact Nat.mod_eq_of_lt (by have := ht.2.2.2.2.2.2; omega)
    have he2 : MSG_ENCODE_AUX env.proto (le32toh
      ((lgn.rundir.drop (lgn.rundir.length - msg >>> env.proto.MSG_TYPE_BITS)).take
        (MSG_SBYTES env.proto (msg >>> env.proto.MSG_TYPE_BITS)))) env.proto.MSG_DATA
        = env.proto.MSG_ERR := he
    rw [he2, herr] at hf
    exact hnd.2.2.2.2.1.2 hf.symm

/-- The bounds at a concrete input: `rundir` has 6 bytes and the word 116 is
MSG_REQ_RDATA(7). -/
theorem rdata_bounds_of_get_login_witness :
    handle_read env0 7 (.msg 116) [login_booting]
      = (false, [login_booting], [Event.send 7 7]) :=
  (rdata_bounds_of_get_login env0 (by decide) 7 116 [login_booting] login_booting
    (by decide) (by decide)).1 (Or.inr (by decide))

/-- C5 (the code at a failing input): a root peer has sent MSG_START(1000) and then
MSG_START(99) on connection 7; both were accepted, so descriptor 7 is a session of login
1000 (rundir "/r/1000", 7 bytes) and of login 99 (rundir "/r/99", 5 bytes).  The word 100
is MSG_REQ_RDATA(6), and 6 exceeds the rundir length of login 99, which has a session on
this connection.  It is not answered with MSG_ERR (word 7): `get_login` resolves the
connection to login 1000, `handle_read` returns true, and the one word sent has tag
MSG_DATA and carries "r/1", three bytes of the rundir of login 1000. -/
theorem C5_rdata_other_login :
    (handle_read env_rd 7 (.msg 16006) []).1 = true ∧
    (handle_read env_rd2 7 (.msg 1590) (handle_read env_rd 7 (.msg 16006) []).2.1).1
      = true ∧
    dup_rd.map (fun l => (l.uid, l.rundir.length, l.sessions))
      = [(1000, 7, [{ fd := 7 }]), (99, 5, [{ fd := 7 }])] ∧
    100 &&& env_rd2.proto.MSG_TYPE_MASK = env_rd2.proto.MSG_REQ_RDATA ∧
    100 >>> env_rd2.proto.MSG_TYPE_BITS = 6 ∧
    handle_read env_rd2 7 (.msg 100) dup_rd = (true, dup_rd, [Event.send 7 51574565]) ∧
    51574565 ≠ env_rd2.proto.MSG_ERR ∧
    51574565 &&& env_rd2.proto.MSG_TYPE_MASK = env_rd2.proto.MSG_DATA ∧
    payload_bytes (51574565 >>> env_rd2.proto.MSG_TYPE_BITS) 3 = [114, 47, 49] := by
  decide

/-! ## C6: what one MSG_DATA reply carries -/

/-- Seven different tags need at least two tag bits (three already do). -/
theorem wf_bits (P : protocol) (hwf : P.wf) : 2 ≤ P.MSG_TYPE_BITS := by
  have ht := tag_le_mask P hwf
  obtain ⟨_, hm, _, hnd⟩ := hwf
  simp [protocol.tags] at hnd
  by_contra hlt
  have hb : P.MSG_TYPE_BITS = 0 ∨ P.MSG_TYPE_BITS = 1 := by omega
  rcases hb with h | h <;> rw [h] at hm <;> norm_num at hm <;> omega

/-- C6 (amended): for `1 ≤ R ≤ len` the reply to MSG_REQ_RDATA(R) has tag MSG_DATA and is
built from exactly `min(R, c)` bytes of `rundir`, `c` being the chunk size of `MSG_SBYTES`,
namely those from offset `len - R` on, packed little-endian; the payload field holds that
value modulo `2 ^ (32 - MSG_TYPE_BITS)`, and when the chunk fits the field
(`8 * c + MSG_TYPE_BITS ≤ 32`) the client reads all `min(R, c)` bytes back from it. -/
theorem C6_rdata_payload (env : Env) (hwf : env.proto.wf) (fd : Int) (msg : Nat)
    (logins : List login) (lgn : login)
    (htag : msg &&& env.proto.MSG_TYPE_MASK = env.proto.MSG_REQ_RDATA)
    (hlogin : get_login fd logins = some lgn)
    (hbytes : ∀ c ∈ lgn.rundir, c < 256)
    (hR1 : 1 ≤ msg >>> env.proto.MSG_TYPE_BITS)
    (hR : msg >>> env.proto.MSG_TYPE_BITS ≤ lgn.rundir.length) :
    ∃ w, (handle_read env fd (.msg msg) logins).2.2 = [Event.send fd w] ∧
      w &&& env.proto.MSG_TYPE_MASK = env.proto.MSG_DATA ∧
      (rdata_chunk env.proto lgn.rundir (msg >>> env.proto.MSG_TYPE_BITS)).length
        = min (msg >>> env.proto.MSG_TYPE_BITS) env.proto.SBYTES_MAX ∧
      w >>> env.proto.MSG_TYPE_BITS
        = le32toh (rdata_chunk env.proto lgn.rundir (msg >>> env.proto.MSG_TYPE_BITS))
            % 2 ^ (32 - env.proto.MSG_TYPE_BITS) ∧
      (8 * env.proto.SBYTES_MAX + env.proto.MSG_TYPE_BITS ≤ 32 →
        payload_bytes (w >>> env.proto.MSG_TYPE_BITS)
            (min (msg >>> env.proto.MSG_TYPE_BITS) env.proto.SBYTES_MAX)
          = rdata_chunk env.proto lgn.rundir (msg >>> env.proto.MSG_TYPE_BITS)) := by
  have hrd := handle_read_rdata env hwf fd msg logins lgn htag hlogin
  have hc : ¬ (msg >>> env.proto.MSG_TYPE_BITS = 0 ∨
      lgn.rundir.length < msg >>> env.proto.MSG_TYPE_BITS) := by omega
  rw [if_neg hc] at hrd
  have ht := tag_le_mask env.proto hwf
  have hf := encode_fields env.proto hwf
    (le32toh (rdata_chunk env.proto lgn.rundir (msg >>> env.proto.MSG_TYPE_BITS)))
    env.proto.MSG_DATA ht.2.2.2.2.1
  have hlen : (rdata_chunk env.proto lgn.rundir (msg >>> env.proto.MSG_TYPE_BITS)).length
      = min (msg >>> env.proto.MSG_TYPE_BITS) env.proto.SBYTES_MAX := by
    unfold rdata_chunk MSG_SBYTES
    rw [List.length_take, List.length_drop]; omega
  have hcb : ∀ c ∈ rdata_chunk env.proto lgn.rundir (msg >>> env.proto.MSG_TYPE_BITS),
      c < 256 :=
    fun c hc => hbytes c (List.mem_of_mem_drop (List.mem_of_mem_take hc))
  refine ⟨MSG_ENCODE env.proto
    (le32toh (rdata_chunk env.proto lgn.rundir (msg >>> env.proto.MSG_TYPE_BITS))),
    ?_, hf.1, hlen, hf.2, ?_⟩
  · rw [hrd]; rfl
  · intro hcap
    have hd := data_reply env.proto hwf hcap _ hcb (by rw [hlen]; omega)
    rw [hd.2.1, ← hlen]
    exact payload_bytes_le32toh _ hcb

/-- C6 at a concrete input: the word 116 - 48 = 68 is MSG_REQ_RDATA(4) and the login's
rundir is "/run/u"; the reply carries the three bytes "n/u" at offsets 2, 3, 4. -/
theorem C6_rdata_payload_witness :
    ∃ w, (handle_read env0 7 (.msg 68) [login_booting]).2.2 = [Event.send 7 w] ∧
      w &&& 15 = 5 ∧
      (rdata_chunk proto0 [47, 114, 117, 110, 47, 117] 4).length = 3 ∧
      w >>> 4 = le32toh (rdata_chunk proto0 [47, 114, 117, 110, 47, 117] 4) % 2 ^ 28 ∧
      (8 * 3 + 4 ≤ 32 →
        payload_bytes (w >>> 4) 3 = rdata_chunk proto0 [47, 114, 117, 110, 47, 117] 4) :=
  C6_rdata_payload env0 (by decide) 7 68 [login_booting] login_booting (by decide)
    (by decide) (by decide) (by decide) (by decide)

/-- C6 as stated fails, whatever the protocol header: with rundir "/run" and `R = 4`, no
reply lets the client read the four bytes 47, 114, 117, 110 back from its payload (a
payload has at most 30 bits, bits 0 to 29, and the fourth byte 110 would need bit 30). -/
theorem C6_four_bytes_counterexample :
    ¬ ∃ (env : Env) (msg w : Nat), env.proto.wf ∧
      msg &&& env.proto.MSG_TYPE_MASK = env.proto.MSG_REQ_RDATA ∧
      msg >>> env.proto.MSG_TYPE_BITS = 4 ∧
      (handle_read env 7 (.msg msg) [login_run]).2.2 = [Event.send 7 w] ∧
      payload_bytes (w >>> env.proto.MSG_TYPE_BITS) 4 = [47, 114, 117, 110] := by
  rintro ⟨env, msg, w, hwf, htag, hR, hev, hpb⟩
  have hlogin : get_login 7 [login_run] = some login_run := by decide
  have hrd := handle_read_rdata env hwf 7 msg [login_run] login_run htag hlogin
  have hc : ¬ (msg >>> env.proto.MSG_TYPE_BITS = 0 ∨
      login_run.rundir.length < msg >>> env.proto.MSG_TYPE_BITS) := by
    rw [hR]; decide
  rw [if_neg hc] at hrd
  rw [hrd] at hev
  simp only [List.cons.injEq, Event.send.injEq, true_and, and_true] at hev
  have ht := tag_le_mask env.proto hwf
  have hf := (encode_fields env.proto hwf
    (le32toh ((login_run.rundir.drop (login_run.rundir.length
      - msg >>> env.proto.MSG_TYPE_BITS)).take
        (MSG_SBYTES env.proto (msg >>> env.proto.MSG_TYPE_BITS))))
    env.proto.MSG_DATA ht.2.2.2.2.1).2
  have hw : w >>> env.proto.MSG_TYPE_BITS < 2 ^ 30 := by
    rw [← hev]
    unfold MSG_ENCODE
    rw [hf]
    have hb := wf_bits env.proto hwf
    have h1 : 2 ^ (32 - env.proto.MSG_TYPE_BITS) ≤ 2 ^ 30 :=
      Nat.pow_le_pow_right (by decide) (by omega)
    exact lt_of_lt_of_le (Nat.mod_lt _ (Nat.two_pow_pos _)) h1
  generalize w >>> env.proto.MSG_TYPE_BITS = x at hw hpb
  simp only [payload_bytes, List.cons.injEq, and_true] at hpb
  obtain ⟨_, _, _, h4⟩ := hpb
  have h30 : (2 : Nat) ^ 30 = 1073741824 := by norm_num
  rw [h30] at hw
  omega

/-! ## C7: packing and unpacking a message word -/

/-- C7 (amended): for every tag `t` of the protocol and every payload `v`, the word
`MSG_ENCODE_AUX(v, t)` unpacks to the tag `t` and to the payload `v` reduced modulo
`2 ^ (32 - MSG_TYPE_BITS)`.  So packing then unpacking gives back `(t, v)` exactly for the
payloads below `2 ^ (32 - MSG_TYPE_BITS)`, and for no larger one. -/
theorem C7_codec_roundtrip (P : protocol) (hwf : P.wf) (t : Nat) (ht : t ∈ P.tags) (v : Nat) :
    MSG_ENCODE_AUX P v t &&& P.MSG_TYPE_MASK = t ∧
    MSG_ENCODE_AUX P v t >>> P.MSG_TYPE_BITS = v % 2 ^ (32 - P.MSG_TYPE_BITS) ∧
    ((MSG_ENCODE_AUX P v t &&& P.MSG_TYPE_MASK, MSG_ENCODE_AUX P v t >>> P.MSG_TYPE_BITS)
        = (t, v) ↔ v < 2 ^ (32 - P.MSG_TYPE_BITS)) := by
  have hle : t ≤ P.MSG_TYPE_MASK := hwf.2.2.1 t ht
  obtain ⟨h1, h2⟩ := encode_fields P hwf v t hle
  refine ⟨h1, h2, ?_⟩
  rw [h1, h2]
  have hpos : 0 < 2 ^ (32 - P.MSG_TYPE_BITS) := Nat.two_pow_pos _
  constructor
  · intro h
    have h3 : v % 2 ^ (32 - P.MSG_TYPE_BITS) = v := (Prod.mk.inj h).2
    rw [← h3]
    exact Nat.mod_lt _ hpos
  · intro h
    rw [Nat.mod_eq_of_lt h]

/-- C7 at a concrete input: MSG_START (tag 6) with UID 1000 is the word 16006. -/
theorem C7_codec_roundtrip_witness :
    MSG_ENCODE_AUX proto0 1000 6 &&& 15 = 6 ∧
    MSG_ENCODE_AUX proto0 1000 6 >>> 4 = 1000 % 2 ^ 28 ∧
    ((MSG_ENCODE_AUX proto0 1000 6 &&& 15, MSG_ENCODE_AUX proto0 1000 6 >>> 4) = (6, 1000)
      ↔ 1000 < 2 ^ 28) :=
  C7_codec_roundtrip proto0 (by decide) 6 (by decide) 1000

/-- C7 as stated fails, whatever the protocol header: the 32-bit UID 4294967294 sent as
the payload of MSG_START does not come back from the packed word. -/
theorem C7_uid_counterexample :
    ¬ ∃ P : protocol, P.wf ∧
      (MSG_ENCODE_AUX P 4294967294 P.MSG_START &&& P.MSG_TYPE_MASK,
       MSG_ENCODE_AUX P 4294967294 P.MSG_START >>> P.MSG_TYPE_BITS)
        = (P.MSG_START, 4294967294) := by
  rintro ⟨P, hwf, h⟩
  have ht := tag_le_mask P hwf
  have h2 := (encode_fields P hwf 4294967294 P.MSG_START ht.2.2.2.2.2.1).2
  have h3 : MSG_ENCODE_AUX P 4294967294 P.MSG_START >>> P.MSG_TYPE_BITS = 4294967294 :=
    (Prod.mk.inj h).2
  rw [h3] at h2
  have hb := wf_bits P hwf
  have h1 : 2 ^ (32 - P.MSG_TYPE_BITS) ≤ 2 ^ 30 :=
    Nat.pow_le_pow_right (by decide) (by omega)
  have h4 : 4294967294 % 2 ^ (32 - P.MSG_TYPE_BITS) < 2 ^ (32 - P.MSG_TYPE_BITS) :=
    Nat.mod_lt _ (Nat.two_pow_pos _)
  have h30 : (2 : Nat) ^ 30 = 1073741824 := by norm_num
  rw [h30] at h1
  omega

/-! ## C8: closing a session -/

/-- The state `conn_term_login` leaves when the last session closes, the policy is not
to linger, a service manager is running and the timer calls succeed. -/
theorem conn_term_login_last (env : Env) (lgn : login) (conn : Int) (p : Int)
    (hs : lgn.sessions = [{ fd := conn }]) (hl : check_linger env lgn = false)
    (hp : lgn.srv_pid = p) (hne : p ≠ -1)
    (htc : env.timer_create_ok lgn.uid = true) (hts : env.timer_settime_ok lgn.uid = true) :
    conn_term_login env lgn conn
      = (true,
         { lgn with sessions := [], term_pid := p, timer_armed := true, srv_pid := -1,
                    start_pid := -1, srv_wait := true },
         [Event.kill p SIGTERM, Event.arm_timer lgn.uid 60, Event.close conn]) := by
  subst hp
  have hl2 : check_linger env { lgn with sessions := [] } = false := hl
  simp [conn_term_login, hs, hl2, hne, arm_timer, htc, hts, kill_timeout]


/-- C8: when the only session of a login is the connection `conn`, the linger policy is
false and `srv_pid = p ≠ -1`, `conn_term_login` returns true, sends SIGTERM to `p`, calls
`arm_timer(kill_timeout)` with `kill_timeout = 60`, closes `conn`, and leaves
`sessions = []`, `term_pid = p`, `srv_pid = -1`, `start_pid = -1`, `srv_wait = true`; when
the timer calls succeed the timer is armed and nothing else in the login changes.  When
the login has a session for `conn` and another session remains after removing it, exactly
that one session is removed, the connection is closed, and nothing else changes: no
signal, no timer, the same child PIDs and flags. -/
theorem C8_session_close (env : Env) (lgn : login) (conn : Int) :
    (∀ p : Int, lgn.sessions = [{ fd := conn }] → check_linger env lgn = false →
      lgn.srv_pid = p → p ≠ -1 →
      (conn_term_login env lgn conn).1 = true ∧
      (conn_term_login env lgn conn).2.1.sessions = [] ∧
      (conn_term_login env lgn conn).2.1.term_pid = p ∧
      (conn_term_login env lgn conn).2.1.srv_pid = -1 ∧
      (conn_term_login env lgn conn).2.1.start_pid = -1 ∧
      (conn_term_login env lgn conn).2.1.srv_wait = true ∧
      (conn_term_login env lgn conn).2.2.take 2
        = [Event.kill p SIGTERM, Event.arm_timer lgn.uid 60] ∧
      (env.timer_create_ok lgn.uid = true → env.timer_settime_ok lgn.uid = true →
        conn_term_login env lgn conn
          = (true,
             { lgn with sessions := [], term_pid := p, timer_armed := true, srv_pid := -1,
                        start_pid := -1, srv_wait := true },
             [Event.kill p SIGTERM, Event.arm_timer lgn.uid 60, Event.close conn]))) ∧
    (lgn.sessions.any (fun s => s.fd == conn) = true →
      lgn.sessions.eraseP (fun s => s.fd == conn) ≠ [] →
      conn_term_login env lgn conn
        = (true, { lgn with sessions := lgn.sessions.eraseP (fun s => s.fd == conn) },
           [Event.close conn]) ∧
      (lgn.sessions.eraseP (fun s => s.fd == conn)).length + 1 = lgn.sessions.length) := by
  constructor
  · intro p hs hl hp hne
    subst hp
    have hl2 : check_linger env { lgn with sessions := [] } = false := hl
    by_cases c1 : env.timer_create_ok lgn.uid = false <;>
    by_cases c2 : env.timer_settime_ok lgn.uid = false <;>
    simp [conn_term_login, hs, hl2, hne, arm_timer, c1, c2, kill_timeout]
  · intro hany hne
    have hne2 : (lgn.sessions.eraseP (fun s => s.fd == conn)).isEmpty = false := by
      cases h : lgn.sessions.eraseP (fun s => s.fd == conn) with
      | nil => exact absurd h hne
      | cons a t => rfl
    constructor
    · simp [conn_term_login, hany, hne2]
    · obtain ⟨s, hs, _⟩ := List.any_eq_true.mp hany
      have hlen := @List.length_eraseP session (fun s => s.fd == conn) lgn.sessions
      rw [if_pos hany] at hlen
      have hpos : 0 < lgn.sessions.length := List.length_pos_of_mem hs
      omega

/-- C8 at a concrete input: the last session (descriptor 7) of `login_ready` closes. -/
theorem C8_session_close_witness :
    conn_term_login env0 login_ready 7
      = (true,
         { login_ready with
           sessions := [], term_pid := 4242, timer_armed := true,
           srv_pid := -1, start_pid := -1, srv_wait := true },
         [Event.kill 4242 15, Event.arm_timer 1000 60, Event.close 7]) :=
  ((C8_session_close env0 login_ready 7).1 4242 (by decide) (by decide) (by decide)
    (by decide)).2.2.2.2.2.2.2 (by decide) (by decide)

/-! ## C9: the kill timer -/

theorem same_core_refl (a : login) : same_core a a := ⟨rfl, rfl, rfl, rfl, rfl, rfl⟩

theorem same_core_trans {a b c : login} (h1 : same_core a b) (h2 : same_core b c) :
    same_core a c := by
  unfold same_core at *
  obtain ⟨a1, a2, a3, a4, a5, a6⟩ := h1
  obtain ⟨b1, b2, b3, b4, b5, b6⟩ := h2
  exact ⟨a1.trans b1, a2.trans b2, a3.trans b3, a4.trans b4, a5.trans b5, a6.trans b6⟩

theorem arm_timer_core (env : Env) (l : login) (t : Nat) :
    same_core (arm_timer env l t).2.1 l := by
  unfold arm_timer
  split
  · exact same_core_refl l
  · split
    · exact same_core_refl l
    · exact ⟨rfl, rfl, rfl, rfl, rfl, rfl⟩

theorem srv_boot_core (env : Env) (l : login) : same_core (srv_boot env l).2.1 l := by
  unfold srv_boot
  split
  · exact same_core_refl l
  · exact ⟨rfl, rfl, rfl, rfl, rfl, rfl⟩

theorem srv_start_dir_core (env : Env) (l : login) :
    match srv_start_dir env l with
    | .ok x => same_core x.1 l
    | .error x => same_core x.1 l := by
  unfold srv_start_dir
  by_cases h1 : env.cdata.disable = true <;>
  by_cases h2 : env.dir_make_at l.uid < 0 <;>
  by_cases h3 : env.login_dir_setup_ok l.uid = false <;>
  by_cases h4 : env.mkfifoat_ok l.uid = false <;>
  by_cases h5 : env.fchownat_ready_ok l.uid = false <;>
  by_cases h6 : env.openat_ready l.uid < 0 <;>
  simp [h1, h2, h3, h4, h5, h6, remove_sdir, same_core]

/-- `srv_start` leaves the sessions, `kill_tried`, `uid`, `term_pid`, `manage_rdir` and
`repopulate` of the login as they were. -/
theorem srv_start_core (env : Env) (l : login) : same_core (srv_start env l).2.1 l := by
  have hd := srv_start_dir_core env { l with srv_wait := true }
  have h0 : same_core { l with srv_wait := true } l := ⟨rfl, rfl, rfl, rfl, rfl, rfl⟩
  unfold srv_start
  simp only []
  split
  · exact h0
  · split
    · rename_i l1 e1 h1
      rw [h1] at hd
      exact same_core_trans hd h0
    · rename_i l1 e1 h1
      rw [h1] at hd
      have hl1 : same_core l1 l := same_core_trans hd h0
      have ha := arm_timer_core env l1 env.cdata.login_timeout
      have hb := fun x => srv_boot_core env x
      by_cases c1 : env.cdata.login_timeout > 0
      · simp only [c1, if_true]
        have hal : same_core (arm_timer env l1 env.cdata.login_timeout).2.1 l :=
          same_core_trans ha hl1
        split
        · exact hal
        · split
          · exact hal
          · split
            · exact same_core_trans (hb _) (same_core_trans ⟨rfl, rfl, rfl, rfl, rfl, rfl⟩ hal)
            · exact same_core_trans ⟨rfl, rfl, rfl, rfl, rfl, rfl⟩ hal
      · simp only [c1, if_false]
        split
        · exact hl1
        · split
          · exact hl1
          · split
            · exact same_core_trans (hb _) (same_core_trans ⟨rfl, rfl, rfl, rfl, rfl, rfl⟩ hl1)
            · exact same_core_trans ⟨rfl, rfl, rfl, rfl, rfl, rfl⟩ hl1

/-- C9: for a login with `timer_armed = true` and `term_pid ≠ -1`, `sig_handle_alrm`
behaves as follows.  With `kill_tried = false` it returns true, deletes the fired timer,
sends SIGTERM to `term_pid` again, sets `kill_tried` and calls `arm_timer(60)`; when the
timer calls succeed the login is otherwise unchanged and armed again, and the handler run
on that login (the second expiry, `term_pid` still unreaped) returns false.  With
`kill_tried = true` it returns false and sends no signal (its only action is deleting the
timer).  Reaping `term_pid` leaves the login with `kill_tried = false` and
`term_pid = -1`.  And after `conn_term_login` closed the last session of a login with a
running service manager and `kill_tried = false`, the first expiry returns true and the
second returns false. -/
theorem C9_kill_escalation (env : Env) (lgn : login) (fds : List pollfd)
    (harmed : lgn.timer_armed = true) (hterm : lgn.term_pid ≠ -1) :
    (lgn.kill_tried = false →
      (sig_handle_alrm env lgn fds).1 = true ∧
      (sig_handle_alrm env lgn fds).2.1.kill_tried = true ∧
      (sig_handle_alrm env lgn fds).2.1.term_pid = lgn.term_pid ∧
      (sig_handle_alrm env lgn fds).2.2.2.take 3
        = [Event.timer_delete lgn.uid, Event.kill lgn.term_pid SIGTERM,
           Event.arm_timer lgn.uid 60] ∧
      (env.timer_create_ok lgn.uid = true → env.timer_settime_ok lgn.uid = true →
        sig_handle_alrm env lgn fds
          = (true, { lgn with kill_tried := true, timer_armed := true }, fds,
             [Event.timer_delete lgn.uid, Event.kill lgn.term_pid SIGTERM,
              Event.arm_timer lgn.uid 60]) ∧
        sig_handle_alrm env { lgn with kill_tried := true, timer_armed := true } fds
          = (false, { lgn with kill_tried := true, timer_armed := false }, fds,
             [Event.timer_delete lgn.uid]))) ∧
    (lgn.kill_tried = true →
      sig_handle_alrm env lgn fds
        = (false, { lgn with timer_armed := false }, fds, [Event.timer_delete lgn.uid])) ∧
    (∀ pre post : List login, (∀ l ∈ pre, not_child lgn.term_pid l) →
      lgn.term_pid ≠ lgn.srv_pid → lgn.term_pid ≠ lgn.start_pid →
      ∃ l1 rest, (srv_reaper env lgn.term_pid (pre ++ lgn :: post) fds).2.1
          = pre ++ l1 :: rest ∧
        l1.kill_tried = false ∧ l1.term_pid = -1) ∧
    (∀ (l0 : login) (conn : Int), l0.sessions = [{ fd := conn }] →
      check_linger env l0 = false → l0.srv_pid ≠ -1 → l0.kill_tried = false →
      env.timer_create_ok l0.uid = true → env.timer_settime_ok l0.uid = true →
      (sig_handle_alrm env (conn_term_login env l0 conn).2.1 fds).1 = true ∧
      (sig_handle_alrm env
        (sig_handle_alrm env (conn_term_login env l0 conn).2.1 fds).2.1 fds).1 = false) := by
  have hterm2 : ¬ lgn.term_pid = -1 := hterm
  refine ⟨?_, ?_, ?_, ?_⟩
  · intro hk
    by_cases c1 : env.timer_create_ok lgn.uid = false <;>
    by_cases c2 : env.timer_settime_ok lgn.uid = false <;>
    simp [sig_handle_alrm, harmed, disarm_timer, hterm2, hk, arm_timer, c1, c2, kill_timeout]
  · intro hk
    simp [sig_handle_alrm, harmed, disarm_timer, hterm2, hk]
  · intro pre post hpre h1 h2
    rw [srv_reaper_skip env lgn.term_pid fds pre hpre]
    have hk : (reap_term lgn).1.kill_tried = false ∧ (reap_term lgn).1.term_pid = -1 := by
      unfold reap_term; exact ⟨rfl, rfl⟩
    by_cases hpend : (reap_term lgn).1.srv_pending = true
    · have hc := srv_start_core env (reap_term lgn).1
      refine ⟨(srv_start env (reap_term lgn).1).2.1, post, ?_, hc.2.1.trans hk.1,
        hc.2.2.2.1.trans hk.2⟩
      simp only [srv_reaper, h1, h2, if_false, if_true, hpend]
    · refine ⟨(reap_term lgn).1, (srv_reaper env lgn.term_pid post fds).2.1, ?_, hk.1, hk.2⟩
      simp only [srv_reaper, h1, h2, if_false, if_true, hpend]
      simp
  · intro l0 conn hs hl hp hk htc hts
    have hc := ((conn_term_login_last env l0 conn) l0.srv_pid hs hl rfl hp) htc hts
    rw [hc]
    have hp2 : ¬ l0.srv_pid = -1 := hp
    simp [sig_handle_alrm, disarm_timer, hp2, hk, arm_timer, htc, hts, kill_timeout]

/-- C9 at a concrete input: the kill timer of `login_dying` fires twice. -/
theorem C9_kill_escalation_witness :
    sig_handle_alrm env0 login_dying []
      = (true, { login_dying with kill_tried := true, timer_armed := true }, [],
         [Event.timer_delete 1000, Event.kill 4242 15, Event.arm_timer 1000 60]) ∧
    sig_handle_alrm env0 { login_dying with kill_tried := true, timer_armed := true } []
      = (false, { login_dying with kill_tried := true, timer_armed := false }, [],
         [Event.timer_delete 1000]) :=
  ((C9_kill_escalation env0 login_dying [] (by decide) (by decide)).1
    (by decide)).2.2.2.2 (by decide) (by decide)

/-! ## C10: reaping the service manager -/

theorem started_cons_close (fd : Int) (ev : List Event) :
    started (Event.close fd :: ev) = started ev := rfl

theorem started_cons_remove_sdir (u : Nat) (ev : List Event) :
    started (Event.remove_sdir u :: ev) = started ev := rfl

theorem started_cons_rundir_clear (u : Nat) (ev : List Event) :
    started (Event.rundir_clear u :: ev) = started ev := rfl

theorem started_cons_timer_delete (u : Nat) (ev : List Event) :
    started (Event.timer_delete u :: ev) = started ev := rfl

/-- `conn_term_login` removes the first session of the connection, if there is one, and
then closes the connection. -/
theorem conn_term_login_sessions (env : Env) (l : login) (c : Int) :
    (conn_term_login env l c).2.1.sessions = l.sessions.eraseP (fun s => s.fd == c) ∧
    (l.sessions.any (fun s => s.fd == c) = true →
      Event.close c ∈ (conn_term_login env l c).2.2) := by
  unfold conn_term_login
  by_cases hany : l.sessions.any (fun s => s.fd == c) = true
  · simp only [hany, if_true]
    split
    · by_cases hs : l.srv_pid = -1
      · simp [hs, remove_sdir]
      · have ha := (arm_timer_core env
          { l with sessions := l.sessions.eraseP (fun s => s.fd == c), term_pid := l.srv_pid }
          kill_timeout).1
        simp only [] at ha
        simp [hs, ha]
    · simp
  · simp only [hany]
    have : l.sessions.eraseP (fun s => s.fd == c) = l.sessions := by
      apply List.eraseP_of_forall_not
      intro a ha hp
      exact hany (List.any_eq_true.mpr ⟨a, ha, hp⟩)
    simp [this]

/-- On a login without a service manager `conn_term_login` starts nothing, arms no timer
and keeps `srv_pid = -1`, `manage_rdir` and `uid`; a cleared `start_pid` stays cleared. -/
theorem conn_term_login_idle (env : Env) (l : login) (c : Int) (hsrv : l.srv_pid = -1) :
    (conn_term_login env l c).2.1.srv_pid = -1 ∧
    (conn_term_login env l c).2.1.timer_armed = l.timer_armed ∧
    (conn_term_login env l c).2.1.manage_rdir = l.manage_rdir ∧
    (conn_term_login env l c).2.1.uid = l.uid ∧
    (l.start_pid = -1 → (conn_term_login env l c).2.1.start_pid = -1) ∧
    started (conn_term_login env l c).2.2 = [] := by
  unfold conn_term_login
  by_cases hany : l.sessions.any (fun s => s.fd == c) = true
  · simp only [hany, if_true]
    split
    · simp [hsrv, remove_sdir, started_cons_remove_sdir, started_cons_close, started_nil]
    · simp [hsrv, started_cons_close, started_nil]
  · simp only [hany]
    simp [hsrv, started_nil]

/-- The loop of `drop_login` on a login without a service manager. -/
theorem drop_login_loop_idle (env : Env) (ps : List pollfd) :
    ∀ l : login, l.srv_pid = -1 → l.start_pid = -1 →
      (drop_login_loop env ps l).2.1.srv_pid = -1 ∧
      (drop_login_loop env ps l).2.1.start_pid = -1 ∧
      (drop_login_loop env ps l).2.1.timer_armed = l.timer_armed ∧
      (drop_login_loop env ps l).2.1.manage_rdir = l.manage_rdir ∧
      (drop_login_loop env ps l).2.1.uid = l.uid ∧
      started (drop_login_loop env ps l).2.2 = [] := by
  induction ps with
  | nil => intro l h1 h2; exact ⟨h1, h2, rfl, rfl, rfl, rfl⟩
  | cons p ps ih =>
    intro l h1 h2
    obtain ⟨a1, a2, a3, a4, a5, a6⟩ := conn_term_login_idle env l p.fd h1
    obtain ⟨b1, b2, b3, b4, b5, b6⟩ := ih (conn_term_login env l p.fd).2.1 a1 (a5 h2)
    simp only [drop_login_loop]
    refine ⟨b1, b2, b3.trans a2, b4.trans a3, b5.trans a4, ?_⟩
    rw [started_append, a6, b6]; rfl

/-- With distinct descriptors, what is left after erasing the session of `a` has no
session of `a`. -/
theorem not_fd_of_mem_eraseP (a : Int) (l : List session)
    (hnd : (l.map session.fd).Nodup) (s : session)
    (hs : s ∈ l.eraseP (fun x => x.fd == a)) : s.fd ≠ a := by
  induction l with
  | nil => simp at hs
  | cons x xs ih =>
    rw [List.map_cons, List.nodup_cons] at hnd
    rw [List.eraseP_cons] at hs
    by_cases hx : x.fd = a
    · have hb : (x.fd == a) = true := by simp [hx]
      rw [hb] at hs
      simp only [cond_true] at hs
      intro hsa
      apply hnd.1
      rw [hx, ← hsa]
      exact List.mem_map_of_mem _ hs
    · have hb : (x.fd == a) = false := by simp [hx]
      rw [hb] at hs
      simp only [cond_false, List.mem_cons] at hs
      rcases hs with h | h
      · rw [h]; exact hx
      · exact ih hnd.2 h

/-- When every session's descriptor is among the poll entries walked and the descriptors
of the sessions are distinct, the loop of `drop_login` removes every session and closes
each one's connection. -/
theorem drop_login_loop_sessions (env : Env) (ps : List pollfd) :
    ∀ l : login, (l.sessions.map session.fd).Nodup →
      (∀ s ∈ l.sessions, ∃ p ∈ ps, p.fd = s.fd) →
      (drop_login_loop env ps l).2.1.sessions = [] ∧
      ∀ s ∈ l.sessions, Event.close s.fd ∈ (drop_login_loop env ps l).2.2 := by
  induction ps with
  | nil =>
    intro l _ hall
    have : l.sessions = [] := by
      apply List.eq_nil_iff_forall_not_mem.mpr
      intro s hs
      obtain ⟨p, hp, _⟩ := hall s hs
      simp at hp
    simp [drop_login_loop, this]
  | cons p ps ih =>
    intro l hnd hall
    obtain ⟨hses, hclose⟩ := conn_term_login_sessions env l p.fd
    have hnd1 : ((conn_term_login env l p.fd).2.1.sessions.map session.fd).Nodup := by
      rw [hses]
      exact List.Nodup.sublist ((List.eraseP_sublist _).map _) hnd
    have hall1 : ∀ s ∈ (conn_term_login env l p.fd).2.1.sessions, ∃ q ∈ ps, q.fd = s.fd := by
      intro s hs
      rw [hses] at hs
      obtain ⟨q, hq, hqs⟩ := hall s (List.mem_of_mem_eraseP hs)
      rcases List.mem_cons.mp hq with h | h
      · exfalso
        exact not_fd_of_mem_eraseP p.fd l.sessions hnd s hs (by rw [← hqs, h])
      · exact ⟨q, h, hqs⟩
    obtain ⟨i1, i2⟩ := ih (conn_term_login env l p.fd).2.1 hnd1 hall1
    simp only [drop_login_loop]
    refine ⟨i1, ?_⟩
    intro s hs
    rw [List.mem_append]
    by_cases hin : s ∈ (conn_term_login env l p.fd).2.1.sessions
    · exact Or.inr (i2 s hin)
    · left
      rw [hses] at hin
      have hp : (s.fd == p.fd) = true := by
        by_contra hneg
        exact hin ((List.mem_eraseP_of_neg (p := fun x : session => x.fd == p.fd) hneg).mpr hs)
      have hfd : s.fd = p.fd := by simpa using hp
      rw [hfd]
      exact hclose (List.any_eq_true.mpr ⟨s, hs, hp⟩)

/-- `drop_login` on a login without a service manager whose sessions all have their
descriptor in the connection part of the poll list: it returns true, no session is left,
every session's connection is closed, the login is marked for repopulation and nothing is
started. -/
theorem drop_login_spec (env : Env) (l : login) (fds : List pollfd)
    (h1 : l.srv_pid = -1) (h2 : l.start_pid = -1)
    (hnd : (l.sessions.map session.fd).Nodup)
    (hall : ∀ s ∈ l.sessions, ∃ p ∈ fds.drop 2, p.fd = s.fd) :
    (drop_login env l fds).1 = true ∧
    (drop_login env l fds).2.1.sessions = [] ∧
    (drop_login env l fds).2.1.repopulate = true ∧
    (drop_login env l fds).2.1.srv_pid = -1 ∧
    (drop_login env l fds).2.1.start_pid = -1 ∧
    (drop_login env l fds).2.1.timer_armed = l.timer_armed ∧
    (drop_login env l fds).2.1.manage_rdir = l.manage_rdir ∧
    (drop_login env l fds).2.1.uid = l.uid ∧
    started (drop_login env l fds).2.2.2 = [] ∧
    ∀ s ∈ l.sessions, Event.close s.fd ∈ (drop_login env l fds).2.2.2 := by
  obtain ⟨a1, a2, a3, a4, a5, a6⟩ := drop_login_loop_idle env (fds.drop 2) l h1 h2
  obtain ⟨b1, b2⟩ := drop_login_loop_sessions env (fds.drop 2) l hnd hall
  refine ⟨?_, b1, rfl, a1, a2, a3, a4, a5, a6, b2⟩
  show (drop_login_loop env (fds.drop 2) l).2.1.sessions.isEmpty = true
  rw [b1]; rfl

/-- The login `srv_reaper` works on in its `srv_pid` branch once the PIDs are cleared, the
timer disarmed and a managed rundir cleared. -/
theorem reap_srv_prepared (lgn : login) :
    (clear_managed_rdir (disarm_timer { lgn with srv_pid := -1, start_pid := -1 }).1).1.srv_pid
      = -1 ∧
    (clear_managed_rdir (disarm_timer { lgn with srv_pid := -1, start_pid := -1 }).1).1.start_pid
      = -1 ∧
    (clear_managed_rdir
      (disarm_timer { lgn with srv_pid := -1, start_pid := -1 }).1).1.timer_armed = false ∧
    (clear_managed_rdir
      (disarm_timer { lgn with srv_pid := -1, start_pid := -1 }).1).1.manage_rdir = false ∧
    (clear_managed_rdir
      (disarm_timer { lgn with srv_pid := -1, start_pid := -1 }).1).1.sessions = lgn.sessions ∧
    (clear_managed_rdir
      (disarm_timer { lgn with srv_pid := -1, start_pid := -1 }).1).1.uid = lgn.uid ∧
    (disarm_timer { lgn with srv_pid := -1, start_pid := -1 }).1.srv_wait = lgn.srv_wait ∧
    started ((disarm_timer { lgn with srv_pid := -1, start_pid := -1 }).2 ++
      (clear_managed_rdir (disarm_timer { lgn with srv_pid := -1, start_pid := -1 }).1).2) = [] ∧
    (lgn.manage_rdir = true → Event.rundir_clear lgn.uid ∈
      (clear_managed_rdir (disarm_timer { lgn with srv_pid := -1, start_pid := -1 }).1).2) := by
  cases ha : lgn.timer_armed <;> cases hm : lgn.manage_rdir <;>
    simp [disarm_timer, clear_managed_rdir, ha, hm, started_nil, started_cons_timer_delete,
      started_cons_rundir_clear]

/-- What `srv_reaper` does for a service manager while every session of its login still
has its entry in the poll list: when `pid` is the `srv_pid` of a login (and of no login
before it in the table), `srv_reaper pid` clears `srv_pid` and `start_pid` and disarms the timer.  If `srv_wait`
was true (and the login's sessions have distinct descriptors, all present in the
connection part of the poll list), it returns true with the login dropped: a managed
rundir is cleared and `manage_rdir` is false, every session is removed and its connection
closed, `repopulate` is true, the timer stays disarmed and `srv_start` is not entered.
If `srv_wait` was false, `srv_start` is entered exactly once, on that login with the
PIDs cleared and the timer disarmed, its result is the result of `srv_reaper`, and the
sessions are as before.  The other logins are untouched. -/
theorem reap_srv_pid_tracked (env : Env) (pid : Int) (fds : List pollfd)
    (pre post : List login) (lgn : login)
    (hpid : pid = lgn.srv_pid) (hpre : ∀ l ∈ pre, not_child pid l) :
    (lgn.srv_wait = true → (lgn.sessions.map session.fd).Nodup →
      (∀ s ∈ lgn.sessions, ∃ p ∈ fds.drop 2, p.fd = s.fd) →
      ∃ l1 fds1 ev, srv_reaper env pid (pre ++ lgn :: post) fds
          = (true, pre ++ l1 :: post, fds1, ev) ∧
        l1.srv_pid = -1 ∧ l1.start_pid = -1 ∧ l1.timer_armed = false ∧
        l1.manage_rdir = false ∧ l1.sessions = [] ∧ l1.repopulate = true ∧
        l1.uid = lgn.uid ∧ started ev = [] ∧
        (∀ s ∈ lgn.sessions, Event.close s.fd ∈ ev) ∧
        (lgn.manage_rdir = true → Event.rundir_clear lgn.uid ∈ ev)) ∧
    (lgn.srv_wait = false →
      srv_reaper env pid (pre ++ lgn :: post) fds
        = ((srv_start env { lgn with srv_pid := -1, start_pid := -1, timer_armed := false }).1,
           pre ++ (srv_start env
             { lgn with srv_pid := -1, start_pid := -1, timer_armed := false }).2.1 :: post,
           fds,
           (if lgn.timer_armed then [Event.timer_delete lgn.uid] else []) ++
            (srv_start env
              { lgn with srv_pid := -1, start_pid := -1, timer_armed := false }).2.2) ∧
      started (srv_reaper env pid (pre ++ lgn :: post) fds).2.2.2 = [lgn.uid] ∧
      (srv_start env
        { lgn with srv_pid := -1, start_pid := -1, timer_armed := false }).2.1.sessions
        = lgn.sessions) := by
  subst hpid
  rw [srv_reaper_skip env lgn.srv_pid fds pre hpre]
  obtain ⟨p1, p2, p3, p4, p5, p6, p7, p8, p9⟩ := reap_srv_prepared lgn
  constructor
  · intro hw hnd hall
    have hw2 : (disarm_timer { lgn with srv_pid := -1, start_pid := -1 }).1.srv_wait = true :=
      p7.trans hw
    obtain ⟨d1, d2, d3, d4, d5, d6, d7, d8, d9, d10⟩ := drop_login_spec env
      (clear_managed_rdir (disarm_timer { lgn with srv_pid := -1, start_pid := -1 }).1).1 fds
      p1 p2 (by rw [p5]; exact hnd) (by rw [p5]; exact hall)
    have hstep : srv_reaper env lgn.srv_pid (lgn :: post) fds
        = ((drop_login env (clear_managed_rdir
              (disarm_timer { lgn with srv_pid := -1, start_pid := -1 }).1).1 fds).1,
           (drop_login env (clear_managed_rdir
              (disarm_timer { lgn with srv_pid := -1, start_pid := -1 }).1).1 fds).2.1 :: post,
           (drop_login env (clear_managed_rdir
              (disarm_timer { lgn with srv_pid := -1, start_pid := -1 }).1).1 fds).2.2.1,
           (disarm_timer { lgn with srv_pid := -1, start_pid := -1 }).2 ++
            (clear_managed_rdir (disarm_timer { lgn with srv_pid := -1, start_pid := -1 }).1).2 ++
            (drop_login env (clear_managed_rdir
              (disarm_timer { lgn with srv_pid := -1, start_pid := -1 }).1).1 fds).2.2.2) := by
      simp only [srv_reaper, if_true, hw2]
    rw [hstep, d1]
    refine ⟨(drop_login env (clear_managed_rdir
              (disarm_timer { lgn with srv_pid := -1, start_pid := -1 }).1).1 fds).2.1,
      (drop_login env (clear_managed_rdir
              (disarm_timer { lgn with srv_pid := -1, start_pid := -1 }).1).1 fds).2.2.1,
      (disarm_timer { lgn with srv_pid := -1, start_pid := -1 }).2 ++
            (clear_managed_rdir (disarm_timer { lgn with srv_pid := -1, start_pid := -1 }).1).2 ++
            (drop_login env (clear_managed_rdir
              (disarm_timer { lgn with srv_pid := -1, start_pid := -1 }).1).1 fds).2.2.2,
      rfl, d4, d5, d6.trans p3, d7.trans p4, d2, d3, d8.trans p6, ?_, ?_, ?_⟩
    · rw [started_append, p8, d9]; rfl
    · intro s hs
      exact List.mem_append_right _ (d10 s (by rw [p5]; exact hs))
    · intro hm
      exact List.mem_append_left _ (List.mem_append_right _ (p9 hm))
  · intro hw
    have hw2 : (disarm_timer { lgn with srv_pid := -1, start_pid := -1 }).1.srv_wait = false :=
      p7.trans hw
    have hstep : srv_reaper env lgn.srv_pid (lgn :: post) fds
        = ((srv_start env { lgn with srv_pid := -1, start_pid := -1, timer_armed := false }).1,
           (srv_start env
             { lgn with srv_pid := -1, start_pid := -1, timer_armed := false }).2.1 :: post,
           fds,
           (if lgn.timer_armed then [Event.timer_delete lgn.uid] else []) ++
            (srv_start env
              { lgn with srv_pid := -1, start_pid := -1, timer_armed := false }).2.2) := by
      simp only [srv_reaper, if_true, hw2]
      cases ha : lgn.timer_armed <;> simp [disarm_timer, ha]
    rw [hstep]
    refine ⟨rfl, ?_, (srv_start_core env _).1⟩
    simp only []
    rw [started_append, started_srv_start]
    cases lgn.timer_armed <;> simp [started_nil, started_cons_timer_delete]

/-- The reaper at a concrete input: the service manager 4242 of `login_booting` dies
before the boot helper reported; both sessions are dropped. -/
theorem reap_srv_pid_tracked_witness :
    ∃ l1 fds1 ev, srv_reaper env0 4242 ([] ++ login_booting :: []) fds0
        = (true, [] ++ l1 :: [], fds1, ev) ∧
      l1.srv_pid = -1 ∧ l1.start_pid = -1 ∧ l1.timer_armed = false ∧
      l1.manage_rdir = false ∧ l1.sessions = [] ∧ l1.repopulate = true ∧
      l1.uid = login_booting.uid ∧ started ev = [] ∧
      (∀ s ∈ login_booting.sessions, Event.close s.fd ∈ ev) ∧
      (login_booting.manage_rdir = true → Event.rundir_clear login_booting.uid ∈ ev) :=
  (reap_srv_pid_tracked env0 4242 fds0 [] [] login_booting (by decide) (by simp)).1
    (by decide) (by decide) (by decide)

/-- C10 (the code at a failing input): a root peer sends MSG_START(1000) and then
MSG_START(1001) on connection 7, and both are accepted; the connection hangs up, which
removes the session of login 1000 only, and compaction drops the poll entry of
descriptor 7.  Login 1001 still has its session for descriptor 7, `srv_pid` 4300 and
`srv_wait` true.  When 4300 is reaped, `srv_reaper` clears the PIDs and disarms the timer,
but the login is not dropped: `drop_login` finds no poll entry for descriptor 7, the
session stays in the login, nothing is closed, and `srv_reaper` returns false. -/
theorem C10_drop_keeps_session :
    dup_s1.1 = true ∧ dup_s3.1 = true ∧ dup_s5.1 = true ∧
    dup_s4.1.map (fun l => (l.uid, l.sessions))
      = [(1000, [{ fd := 7 }]), (1001, [{ fd := 7 }])] ∧
    dup_s4.2.1.map (fun p => p.fd) = [3, 4, 12, 10, 7] ∧
    dup_s6.1.map (fun l => (l.uid, l.sessions, l.srv_pid, l.srv_wait))
      = [(1000, [], -1, true), (1001, [{ fd := 7 }], 4300, true)] ∧
    dup_s6.2.1.map (fun p => p.fd) = [3, 4, 12, 10] ∧
    dup_s7.1 = false ∧
    dup_s7.2.1.map (fun l => (l.uid, l.sessions, l.srv_pid, l.start_pid, l.timer_armed))
      = [(1000, [], -1, -1, true), (1001, [{ fd := 7 }], -1, -1, false)] ∧
    dup_s7.2.2.2 = [Event.timer_delete 1001] ∧
    Event.close 7 ∉ dup_s7.2.2.2 := by
  decide

/-! ## C11: reaping the terminated service manager -/

/-- The login and the actions the `term_pid` branch of `srv_reaper` produces before it
looks at `srv_pending`. -/
theorem reap_term_eq (lgn : login) :
    reap_term lgn
      = ({ lgn with
           timer_armed := false, dirfd := -1, manage_rdir := false,
           repopulate := if lgn.sessions.isEmpty then true else lgn.repopulate,
           term_pid := -1, kill_tried := false },
         (if lgn.timer_armed then [Event.timer_delete lgn.uid] else []) ++
          [Event.remove_sdir lgn.uid] ++
          (if lgn.manage_rdir then [Event.rundir_clear lgn.uid] else [])) := by
  cases ha : lgn.timer_armed <;> cases hm : lgn.manage_rdir <;>
    cases he : lgn.sessions.isEmpty <;>
    simp [reap_term, disarm_timer, remove_sdir, clear_managed_rdir, ha, hm, he]

/-- C11: when `pid` is the `term_pid` of a login, differs from its `srv_pid` and
`start_pid` and is recorded by no other login, `srv_reaper pid` disarms the timer, removes
the login directory (`dirfd = -1`), clears a managed rundir (`manage_rdir = false`), sets
`term_pid = -1` and `kill_tried = false`, and sets `repopulate` to true when the session
list is empty, leaving it as it was otherwise.  If `srv_pending` was true, `srv_start` is
then entered exactly once, on the login so cleaned, and its result is the result of
`srv_reaper`; if `srv_pending` was false, `srv_start` is not entered, the login stays as
cleaned and `srv_reaper` returns true. -/
theorem C11_reap_term_pid (env : Env) (pid : Int) (fds : List pollfd)
    (pre post : List login) (lgn : login)
    (hpid : pid = lgn.term_pid) (hsrv : pid ≠ lgn.srv_pid) (hstart : pid ≠ lgn.start_pid)
    (hpre : ∀ l ∈ pre, not_child pid l) (hpost : ∀ l ∈ post, not_child pid l) :
    (lgn.srv_pending = true →
      srv_reaper env pid (pre ++ lgn :: post) fds
        = ((srv_start env { lgn with
              timer_armed := false, dirfd := -1, manage_rdir := false,
              repopulate := if lgn.sessions.isEmpty then true else lgn.repopulate,
              term_pid := -1, kill_tried := false }).1,
           pre ++ (srv_start env { lgn with
              timer_armed := false, dirfd := -1, manage_rdir := false,
              repopulate := if lgn.sessions.isEmpty then true else lgn.repopulate,
              term_pid := -1, kill_tried := false }).2.1 :: post,
           fds,
           ((if lgn.timer_armed then [Event.timer_delete lgn.uid] else []) ++
            [Event.remove_sdir lgn.uid] ++
            (if lgn.manage_rdir then [Event.rundir_clear lgn.uid] else [])) ++
           (srv_start env { lgn with
              timer_armed := false, dirfd := -1, manage_rdir := false,
              repopulate := if lgn.sessions.isEmpty then true else lgn.repopulate,
              term_pid := -1, kill_tried := false }).2.2) ∧
      started (srv_reaper env pid (pre ++ lgn :: post) fds).2.2.2 = [lgn.uid]) ∧
    (lgn.srv_pending = false →
      srv_reaper env pid (pre ++ lgn :: post) fds
        = (true,
           pre ++ { lgn with
              timer_armed := false, dirfd := -1, manage_rdir := false,
              repopulate := if lgn.sessions.isEmpty then true else lgn.repopulate,
              term_pid := -1, kill_tried := false } :: post,
           fds,
           (if lgn.timer_armed then [Event.timer_delete lgn.uid] else []) ++
            [Event.remove_sdir lgn.uid] ++
            (if lgn.manage_rdir then [Event.rundir_clear lgn.uid] else [])) ∧
      started (srv_reaper env pid (pre ++ lgn :: post) fds).2.2.2 = []) := by
  subst hpid
  have hsrv2 : ¬ lgn.term_pid = lgn.srv_pid := hsrv
  have hstart2 : ¬ lgn.term_pid = lgn.start_pid := hstart
  have hn := srv_reaper_none env lgn.term_pid fds post hpost
  have hrt := reap_term_eq lgn
  have hpend : (reap_term lgn).1.srv_pending = lgn.srv_pending := by rw [hrt]
  have hst : started (reap_term lgn).2 = [] := by
    rw [hrt]
    cases lgn.timer_armed <;> cases lgn.manage_rdir <;> rfl
  rw [srv_reaper_skip env lgn.term_pid fds pre hpre]
  constructor
  · intro hp
    have hstep : srv_reaper env lgn.term_pid (lgn :: post) fds
        = ((srv_start env (reap_term lgn).1).1, (srv_start env (reap_term lgn).1).2.1 :: post,
           fds, (reap_term lgn).2 ++ (srv_start env (reap_term lgn).1).2.2) := by
      simp only [srv_reaper, hsrv2, hstart2, if_false, if_true, hpend, hp]
    rw [hstep]
    refine ⟨by rw [hrt], ?_⟩
    show started ((reap_term lgn).2 ++ (srv_start env (reap_term lgn).1).2.2) = [lgn.uid]
    rw [started_append, hst, started_srv_start, hrt]
    rfl
  · intro hp
    have hstep : srv_reaper env lgn.term_pid (lgn :: post) fds
        = (true, (reap_term lgn).1 :: post, fds, (reap_term lgn).2) := by
      simp only [srv_reaper, hsrv2, hstart2, if_false, if_true, hpend, hp, hn]
      simp
    rw [hstep]
    refine ⟨by rw [hrt], ?_⟩
    exact hst

/-- C11 at a concrete input: the terminated service manager 4242 of `login_dying` is
reaped; the login has no session and no pending start. -/
theorem C11_reap_term_pid_witness :
    srv_reaper env0 4242 [login_dying] fds0
      = (true,
         [{ login_dying with
            timer_armed := false, dirfd := -1, repopulate := true, term_pid := -1 }],
         fds0, [Event.timer_delete 1000, Event.remove_sdir 1000]) ∧
    started (srv_reaper env0 4242 [login_dying] fds0).2.2.2 = [] :=
  ⟨(((C11_reap_term_pid env0 4242 fds0 [] [] login_dying (by decide) (by decide) (by decide)
      (by simp) (by simp)).2 (by decide)).1).trans (by decide),
   ((C11_reap_term_pid env0 4242 fds0 [] [] login_dying (by decide) (by decide) (by decide)
      (by simp) (by simp)).2 (by decide)).2⟩

/-! ## C12: one session per connection -/

/-- C12 (the code at a failing input): a root peer sends MSG_START(1000) and then
MSG_START(1001) on the same connection, descriptor 7.  Both are accepted (`handle_read`
returns true and replies MSG_OK_WAIT, word 1), and the table then holds two logins each
with a session for descriptor 7.  Terminating connection 7 afterwards removes only the
session of the first login; the second keeps a session whose descriptor is closed. -/
theorem C12_same_fd_two_logins :
    (handle_read env_root2 7 (.msg 16022) (handle_read env_root 7 (.msg 16006) []).2.1).1
      = true ∧
    (handle_read env_root2 7 (.msg 16022)
        (handle_read env_root 7 (.msg 16006) []).2.1).2.2.getLast? = some (Event.send 7 1) ∧
    (handle_read env_root2 7 (.msg 16022)
        (handle_read env_root 7 (.msg 16006) []).2.1).2.1.map
          (fun l => (l.uid, l.sessions))
      = [(1000, [{ fd := 7 }]), (1001, [{ fd := 7 }])] ∧
    (conn_term env_root2 7 (handle_read env_root2 7 (.msg 16022)
        (handle_read env_root 7 (.msg 16006) []).2.1).2.1).1.map
          (fun l => (l.uid, l.sessions))
      = [(1000, []), (1001, [{ fd := 7 }])] := by
  decide

/-! ## C13: home directories that are not absolute -/

/-- `login_find` returns a focus of the table it searched. -/
theorem login_find_eq (uid : Nat) (logins : List login) :
    ∀ pre l post, login_find uid logins = some (pre, l, post) →
      logins = pre ++ l :: post ∧ l.uid = uid := by
  induction logins with
  | nil => intro pre l post h; simp [login_find] at h
  | cons x xs ih =>
    intro pre l post h
    unfold login_find at h
    by_cases hx : x.uid = uid
    · simp only [hx, if_true, Option.some.injEq, Prod.mk.injEq] at h
      obtain ⟨h1, h2, h3⟩ := h
      subst h1 h2 h3
      exact ⟨rfl, hx⟩
    · simp only [hx, if_false] at h
      cases hf : login_find uid xs with
      | none => rw [hf] at h; simp at h
      | some z =>
        obtain ⟨p1, l1, q1⟩ := z
        rw [hf] at h
        simp only [Option.some.injEq, Prod.mk.injEq] at h
        obtain ⟨h1, h2, h3⟩ := h
        subst h1 h2 h3
        obtain ⟨e1, e2⟩ := ih p1 l1 q1 hf
        exact ⟨by rw [e1]; rfl, e2⟩

/-- C13 (amended): when `login_populate` has to consult the password database for a UID
(no login for it exists, or the existing one is marked `repopulate`) and the entry's home
directory does not begin with '/', it returns no login and the login table is exactly as
before, and a MSG_START for that UID is answered with MSG_ERR and `false`, the table
untouched.  A login that is returned after consulting the database has a home directory
beginning with '/', and whatever `login_populate` does to the table is at most one login
appended or replaced, by one whose home directory begins with '/'.  A login that already
exists with `repopulate` false is returned as it is, the table unchanged, whatever the
password database holds: the result does not depend on `getpwuid`. -/
theorem C13_relative_home (env : Env) :
    (∀ (uid : Nat) (logins : List login) (pwd : passwd), env.getpwuid uid = some pwd →
      pwd.pw_dir.head? ≠ some 47 →
      (∀ x, login_find uid logins = some x → x.2.1.repopulate = true) →
      login_populate env uid logins = (none, logins) ∧
      ∀ (fd : Int) (msg : Nat), msg &&& env.proto.MSG_TYPE_MASK = env.proto.MSG_START →
        msg >>> env.proto.MSG_TYPE_BITS = uid →
        handle_read env fd (.msg msg) logins
          = (false, logins, [Event.send fd env.proto.MSG_ERR])) ∧
    (∀ (uid : Nat) (logins pre post logins1 : List login) (l : login),
      (∀ x, login_find uid logins = some x → x.2.1.repopulate = true) →
      login_populate env uid logins = (some (pre, l, post), logins1) →
      l.homedir.head? = some 47 ∧ l.repopulate = false) ∧
    (∀ (uid : Nat) (logins : List login),
      (login_populate env uid logins).2 = logins ∨
      ∃ pre l post, (login_populate env uid logins).2 = pre ++ l :: post ∧
        l.homedir.head? = some 47 ∧
        ((logins = pre ∧ post = []) ∨ ∃ l0, logins = pre ++ l0 :: post)) ∧
    (∀ (uid : Nat) (logins pre post : List login) (l : login),
      login_find uid logins = some (pre, l, post) → l.repopulate = false →
      login_populate env uid logins = (some (pre, l, post), logins) ∧
      ∀ (db : Nat → Option passwd),
        login_populate { env with getpwuid := db } uid logins
          = (some (pre, l, post), logins)) := by
  refine ⟨?_, ?_, ?_, ?_⟩
  · intro uid logins pwd hpw hrel hfresh
    have hpop : login_populate env uid logins = (none, logins) := by
      unfold login_populate
      cases hf : login_find uid logins with
      | none => simp [hpw, hrel]
      | some z =>
        obtain ⟨p1, l1, q1⟩ := z
        have := hfresh _ hf
        simp only [] at this
        simp [hpw, hrel, this]
    refine ⟨hpop, ?_⟩
    intro fd msg htag hpay
    have hsn : handle_session_new env fd uid logins = (none, logins) := by
      unfold handle_session_new
      cases hp : env.get_peer_euid fd with
      | none => rfl
      | some p =>
        simp only [hpop]
        split <;> rfl
    simp only [handle_read, htag, hpay, hsn, if_true, msg_send_err]
  · intro uid logins pre post logins1 l hfresh hpop
    unfold login_populate at hpop
    cases hf : login_find uid logins with
    | none =>
      rw [hf] at hpop
      simp only [] at hpop
      cases hpw : env.getpwuid uid with
      | none => rw [hpw] at hpop; simp at hpop
      | some pwd =>
        rw [hpw] at hpop
        by_cases hh : pwd.pw_dir.head? = some 47
        · by_cases hx : (env.cfg_expand_rundir pwd.pw_uid pwd.pw_gid).1 = false
          · simp [hh, hx] at hpop
          · simp [hh, hx] at hpop
            obtain ⟨⟨_, h2, _⟩, _⟩ := hpop
            rw [← h2]
            exact ⟨hh, rfl⟩
        · simp [hh] at hpop
    | some z =>
      obtain ⟨p1, l1, q1⟩ := z
      have hr := hfresh _ hf
      simp only [] at hr
      rw [hf] at hpop
      simp only [hr] at hpop
      cases hpw : env.getpwuid uid with
      | none => rw [hpw] at hpop; simp at hpop
      | some pwd =>
        rw [hpw] at hpop
        by_cases hh : pwd.pw_dir.head? = some 47
        · by_cases hx : (env.cfg_expand_rundir pwd.pw_uid pwd.pw_gid).1 = false
          · simp [hh, hx] at hpop
          · simp [hh, hx] at hpop
            obtain ⟨⟨_, h2, _⟩, _⟩ := hpop
            rw [← h2]
            exact ⟨hh, rfl⟩
        · simp [hh] at hpop
  · intro uid logins
    unfold login_populate
    cases hf : login_find uid logins with
    | none =>
      simp only []
      cases hpw : env.getpwuid uid with
      | none => left; simp
      | some pwd =>
        by_cases hh : pwd.pw_dir.head? = some 47
        · right
          by_cases hx : (env.cfg_expand_rundir pwd.pw_uid pwd.pw_gid).1 = false
          · simp only [hh, hx]
            exact ⟨logins, _, [], rfl, hh, Or.inl ⟨rfl, rfl⟩⟩
          · simp only [hh, hx]
            exact ⟨logins, _, [], rfl, hh, Or.inl ⟨rfl, rfl⟩⟩
        · left; simp [hh]
    | some z =>
      obtain ⟨p1, l1, q1⟩ := z
      obtain ⟨e1, _⟩ := login_find_eq uid logins p1 l1 q1 hf
      simp only []
      by_cases hr : l1.repopulate = true
      · cases hpw : env.getpwuid uid with
        | none => left; simp [hr]
        | some pwd =>
          by_cases hh : pwd.pw_dir.head? = some 47
          · right
            by_cases hx : (env.cfg_expand_rundir pwd.pw_uid pwd.pw_gid).1 = false
            · simp only [hh, hx, hr]
              exact ⟨p1, _, q1, rfl, hh, Or.inr ⟨l1, e1⟩⟩
            · simp only [hh, hx, hr]
              exact ⟨p1, _, q1, rfl, hh, Or.inr ⟨l1, e1⟩⟩
          · left; simp [hh, hr]
      · left
        simp [hr]
  · intro uid logins pre post l hf hr
    refine ⟨?_, ?_⟩
    · unfold login_populate
      simp [hf, hr]
    · intro db
      unfold login_populate
      simp [hf, hr]

/-- C13 at a concrete input: UID 1000 has the relative home "h" and no login yet; nothing
is created and MSG_START(1000) on descriptor 7 is answered with MSG_ERR (word 7). -/
theorem C13_relative_home_witness :
    login_populate env_relhome 1000 [] = (none, []) ∧
    handle_read env_relhome 7 (.msg 16006) [] = (false, [], [Event.send 7 7]) :=
  ⟨((C13_relative_home env_relhome).1 1000 []
      { pw_uid := 1000, pw_gid := 1000, pw_name := [117], pw_dir := [104], pw_shell := [47] }
      rfl (by decide) (by intro x hx; simp [login_find] at hx)).1,
   ((C13_relative_home env_relhome).1 1000 []
      { pw_uid := 1000, pw_gid := 1000, pw_name := [117], pw_dir := [104], pw_shell := [47] }
      rfl (by decide) (by intro x hx; simp [login_find] at hx)).2 7 16006
      (by decide) (by decide)⟩

/-- C13 as stated fails when the UID already has a populated login: the password entry
of UID 1000 now has the relative home "h", yet `login_populate` returns the existing login
`login_run` without consulting the database, and MSG_START(1000) on descriptor 8 is
accepted (`handle_read` returns true and the reply is MSG_OK_WAIT, word 1). -/
theorem C13_cached_login_counterexample :
    (env_relhome.getpwuid 1000).map (fun p => p.pw_dir.head?) = some (some 104) ∧
    (login_populate env_relhome 1000 [login_run]).1 = some ([], login_run, []) ∧
    (handle_read env_relhome 8 (.msg 16006) [login_run]).1 = true ∧
    (handle_read env_relhome 8 (.msg 16006) [login_run]).2.2.getLast?
      = some (Event.send 8 1) := by
  decide

/-! ## C14: a failed start on MSG_START -/

theorem sent_append (a b : List Event) : sent (a ++ b) = sent a ++ sent b := by
  simp [sent, List.filterMap_append]

theorem sent_nil : sent [] = [] := rfl

theorem sent_cons_start (u : Nat) (ev : List Event) :
    sent (Event.srv_start u :: ev) = sent ev := rfl

theorem sent_cons_close (fd : Int) (ev : List Event) :
    sent (Event.close fd :: ev) = sent ev := rfl

theorem sent_cons_kill (p : Int) (s : Nat) (ev : List Event) :
    sent (Event.kill p s :: ev) = sent ev := rfl

theorem sent_cons_remove_sdir (u : Nat) (ev : List Event) :
    sent (Event.remove_sdir u :: ev) = sent ev := rfl

theorem sent_arm_timer (env : Env) (l : login) (t : Nat) :
    sent (arm_timer env l t).2.2 = [] := by
  unfold arm_timer
  split
  · rfl
  · split <;> rfl

theorem sent_srv_start_dir (env : Env) (l : login) :
    match srv_start_dir env l with
    | .ok x => sent x.2 = []
    | .error x => sent x.2 = [] := by
  unfold srv_start_dir
  by_cases h1 : env.cdata.disable = true <;>
  by_cases h2 : env.dir_make_at l.uid < 0 <;>
  by_cases h3 : env.login_dir_setup_ok l.uid = false <;>
  by_cases h4 : env.mkfifoat_ok l.uid = false <;>
  by_cases h5 : env.fchownat_ready_ok l.uid = false <;>
  by_cases h6 : env.openat_ready l.uid < 0 <;>
  simp [h1, h2, h3, h4, h5, h6, remove_sdir, sent]

/-- `srv_start` sends nothing to any connection. -/
theorem sent_srv_start (env : Env) (l : login) : sent (srv_start env l).2.2 = [] := by
  have hd := sent_srv_start_dir env { l with srv_wait := true }
  have ht := fun l1 => sent_arm_timer env l1 env.cdata.login_timeout
  unfold srv_start
  simp only []
  split
  · rfl
  · split
    · rename_i l1 e1 h1
      rw [h1] at hd
      simp only [] at hd
      simp [sent_append, sent_cons_start, sent_nil, hd]
    · rename_i l1 e1 h1
      rw [h1] at hd
      simp only [] at hd
      by_cases c1 : env.cdata.login_timeout > 0 <;>
      by_cases c2 : (arm_timer env l1 env.cdata.login_timeout).1 = false <;>
      by_cases c3 : env.fork l.uid < 0 <;>
      by_cases c4 : (arm_timer env l1 env.cdata.login_timeout).2.1.userpipe < 0 <;>
      by_cases c5 : l1.userpipe < 0 <;>
      simp [c1, c2, c3, c4, c5, sent_append, sent_cons_start, sent_nil, hd, ht,
        srv_boot_events]

/-- `conn_term_login` reports whether the login had a session for the connection, and
sends nothing. -/
theorem conn_term_login_found (env : Env) (l : login) (c : Int) :
    (conn_term_login env l c).1 = l.sessions.any (fun s => s.fd == c) ∧
    sent (conn_term_login env l c).2.2 = [] := by
  unfold conn_term_login
  by_cases hany : l.sessions.any (fun s => s.fd == c) = true
  · simp only [hany, if_true]
    split
    · by_cases hs : l.srv_pid = -1
      · simp [hs, remove_sdir, sent_cons_remove_sdir, sent_cons_close, sent_nil]
      · have ha := sent_arm_timer env
          { l with sessions := l.sessions.eraseP (fun s => s.fd == c), term_pid := l.srv_pid }
          kill_timeout
        simp only [] at ha
        simp [hs, sent_append, sent_cons_kill, ha, sent_cons_close, sent_nil]
    · simp [sent_cons_close, sent_nil]
  · simp only [hany]
    simp [sent_nil]

/-- `conn_term` closes the connection and sends nothing. -/
theorem conn_term_events (env : Env) (c : Int) (ls : List login) :
    sent (conn_term env c ls).2 = [] ∧ Event.close c ∈ (conn_term env c ls).2 := by
  induction ls with
  | nil => simp [conn_term, sent_cons_close, sent_nil]
  | cons l ls ih =>
    obtain ⟨h1, h2⟩ := conn_term_login_found env l c
    have h3 := (conn_term_login_sessions env l c).2
    unfold conn_term
    by_cases hany : l.sessions.any (fun s => s.fd == c) = true
    · have hr : (conn_term_login env l c).1 = true := by rw [h1]; exact hany
      simp only [hr, if_true]
      exact ⟨h2, h3 hany⟩
    · have hr : (conn_term_login env l c).1 = false := by
        rw [h1]; simpa using hany
      simp only [hr]
      exact ih

/-- What the code does when `srv_start` fails: for an accepted MSG_START that requires
starting the service manager (`srv_wait` true, `srv_pid = -1`, `term_pid = -1`), if
`srv_start` fails then `handle_read` returns false having sent no word at all, so no
MSG_ERR reaches the requester; the login is left as `srv_start` left it.  `fd_handle_conn` then terminates the connection:
`conn_term` runs on the table, the descriptor is closed, the poll entry gets `fd = -1`
and `revents = 0`, and still nothing has been sent. -/
theorem start_failure_sends_nothing (env : Env) (fd : Int) (msg : Nat)
    (logins pre post logins1 : List login) (lgn : login)
    (htag : msg &&& env.proto.MSG_TYPE_MASK = env.proto.MSG_START)
    (hacc : handle_session_new env fd (msg >>> env.proto.MSG_TYPE_BITS) logins
      = (some (pre, lgn, post), logins1))
    (hw : lgn.srv_wait = true) (hp : lgn.srv_pid = -1) (ht : lgn.term_pid = -1)
    (hfail : (srv_start env lgn).1 = false) :
    handle_read env fd (.msg msg) logins
      = (false, pre ++ (srv_start env lgn).2.1 :: post, (srv_start env lgn).2.2) ∧
    sent (handle_read env fd (.msg msg) logins).2.2 = [] ∧
    ∀ (i : Nat) (fds : List pollfd) (p : pollfd), fds[i]? = some p → p.fd = fd →
      p.revents &&& POLLHUP = 0 → p.revents &&& POLLIN ≠ 0 →
      (fd_handle_conn env i (.msg msg) logins fds).1 = true ∧
      (fd_handle_conn env i (.msg msg) logins fds).2.1
        = (conn_term env fd (pre ++ (srv_start env lgn).2.1 :: post)).1 ∧
      (fd_handle_conn env i (.msg msg) logins fds).2.2.1
        = fds.set i { p with fd := -1, revents := 0 } ∧
      sent (fd_handle_conn env i (.msg msg) logins fds).2.2.2 = [] ∧
      Event.close fd ∈ (fd_handle_conn env i (.msg msg) logins fds).2.2.2 := by
  have hr : handle_read env fd (.msg msg) logins
      = (false, pre ++ (srv_start env lgn).2.1 :: post, (srv_start env lgn).2.2) := by
    simp only [handle_read, htag, hacc]
    simp [handle_start, hw, hp, ht, hfail]
  have hs := sent_srv_start env lgn
  refine ⟨hr, by rw [hr]; exact hs, ?_⟩
  intro i fds p hi hfd hhup hin
  have hne : ¬ p.revents = 0 := by
    intro h0; rw [h0] at hin; simp at hin
  obtain ⟨c1, c2⟩ := conn_term_events env fd (pre ++ (srv_start env lgn).2.1 :: post)
  simp only [fd_handle_conn, hi, hne, hhup, hin, hfd, hr, if_false, if_true, ne_eq,
    not_true_eq_false, not_false_eq_true]
  refine ⟨trivial, trivial, trivial, ?_, ?_⟩
  · rw [sent_append, hs, c1]; rfl
  · exact List.mem_append_right _ c2

/-- The failed start at a concrete input: peer 1001 sends MSG_START(1001) on descriptor 7
and `fork` fails; `handle_read` has sent nothing. -/
theorem start_failure_sends_nothing_witness :
    sent (handle_read env_nofork 7 (.msg 16022) []).2.2 = [] :=
  (start_failure_sends_nothing env_nofork 7 16022 [] [] []
    [{ login0 with uid := 1001, gid := 1001, sessions := [{ fd := 7 }], repopulate := false }]
    { login0 with uid := 1001, gid := 1001, sessions := [{ fd := 7 }], repopulate := false }
    (by decide) (by decide) (by decide) (by decide) (by decide) (by decide)).2.1

/-- C14 (the code at a failing input): peer 1001 sends MSG_START(1001), word 16022, on
connection 7 to a daemon with no logins, and `fork` fails in `srv_start`.  The request is
accepted (`handle_session_new` returns the login with a session for descriptor 7 and
`srv_wait` true, `srv_pid = -1`, `term_pid = -1`), `srv_start` returns false, and
`handle_read` returns false without sending anything.  The whole handling by
`fd_handle_conn` consists of entering `srv_start`, arming the login timer, removing the
login directory and closing the connection: no MSG_ERR (word 7), nor any other word, is
sent on descriptor 7; the session is removed from the login and the poll entry is marked
-1.  The refusal next to it in the same case, a failing `handle_session_new` (here the
same request to a daemon whose password database has a relative home), does send
MSG_ERR. -/
theorem C14_silent_start_failure :
    (handle_session_new env_nofork 7 1001 []).1.map
        (fun z => (z.2.1.uid, z.2.1.sessions, z.2.1.srv_wait, z.2.1.srv_pid, z.2.1.term_pid))
      = some (1001, [{ fd := 7 }], true, -1, -1) ∧
    (handle_read env_nofork 7 (.msg 16022) []).1 = false ∧
    (handle_read env_nofork 7 (.msg 16022) []).2.2
      = [Event.srv_start 1001, Event.arm_timer 1001 60] ∧
    (fd_handle_conn env_nofork 2 (.msg 16022) [] fds_in7).2.2.2
      = [Event.srv_start 1001, Event.arm_timer 1001 60, Event.remove_sdir 1001,
         Event.close 7] ∧
    Event.send 7 7 ∉ (fd_handle_conn env_nofork 2 (.msg 16022) [] fds_in7).2.2.2 ∧
    (fd_handle_conn env_nofork 2 (.msg 16022) [] fds_in7).2.1.map
        (fun l => (l.uid, l.sessions))
      = [(1001, [])] ∧
    (fd_handle_conn env_nofork 2 (.msg 16022) [] fds_in7).2.2.1.map (fun p => p.fd)
      = [3, 4, -1] ∧
    handle_read { env_relhome with get_peer_euid := fun _ => some 1001 } 7 (.msg 16022) []
      = (false, [], [Event.send 7 7]) := by
  decide

/-! ## C15: a word with an unknown tag -/

namespace Dinit

theorem pack_append (a b : List CStr) : pack (a ++ b) = pack a ++ pack b := by
  induction a with
  | nil => rfl
  | cons s a ih => simp [pack, ih]

/-- One `add_str` on a buffer that packs `strs` packs one more string. -/
theorem add_str_pack (strs : List CStr) (pieces : List CStr) :
    add_str (pack strs, strs.length) pieces
      = (pack (strs ++ [pieces.flatten]), (strs ++ [pieces.flatten]).length) := by
  simp [add_str, pack_append, pack]

theorem add_srv_paths_pack (homedir : CStr) (sps : List CStr) :
    ∀ strs : List CStr, add_srv_paths homedir sps (pack strs, strs.length)
      = (pack (strs ++ sps.flatMap (fun sp => [cstr "--services-dir", srv_dir_arg homedir sp])),
         (strs ++ sps.flatMap
            (fun sp => [cstr "--services-dir", srv_dir_arg homedir sp])).length) := by
  induction sps with
  | nil => intro strs; simp [add_srv_paths]
  | cons sp sps ih =>
    intro strs
    unfold add_srv_paths
    simp only []
    rw [add_str_pack]
    by_cases h : sp.head? = some 47
    · have h2 : ¬ (sp.head? ≠ some 47) := fun hh => hh h
      rw [if_neg h2, add_str_pack, ih]
      simp [srv_dir_arg, h]
    · rw [if_pos h, add_str_pack, ih]
      simp [srv_dir_arg, h]

/-- The C string that starts where a packed, NUL-free string starts is that string. -/
theorem c_str_at (pre s tail : List Nat) (hs : nul_free s) :
    c_str (pre ++ (s ++ 0 :: tail)) pre.length = s := by
  unfold c_str
  rw [List.drop_left]
  have hp : ∀ a ∈ s, (fun c : Nat => c != 0) a = true := by
    intro a ha
    simpa using hs a ha
  rw [List.takeWhile_append_of_pos hp]
  simp [List.takeWhile_cons]

/-- Walking a buffer by `strlen + 1` over a packed segment of NUL-free strings: one
pointer is pushed for each string, none of them null, each pointing at its string, and
the walk ends right behind the segment. -/
theorem push_ptrs_pack (B : List Nat) (strs : List CStr) :
    ∀ pre rest : List Nat, B = pre ++ (pack strs ++ rest) → (∀ s ∈ strs, nul_free s) →
      (∀ o ∈ (push_ptrs B strs.length pre.length).1, o.isSome = true) ∧
      (push_ptrs B strs.length pre.length).1.length = strs.length ∧
      ((push_ptrs B strs.length pre.length).1.filterMap id).map (c_str B) = strs ∧
      (push_ptrs B strs.length pre.length).2 = pre.length + (pack strs).length := by
  induction strs with
  | nil => intro pre rest _ _; simp [push_ptrs, pack]
  | cons s t ih =>
    intro pre rest hB hnf
    have hs : nul_free s := hnf s (List.mem_cons_self _ _)
    have hB1 : B = pre ++ (s ++ 0 :: (pack t ++ rest)) := by rw [hB]; simp [pack]
    have hc : c_str B pre.length = s := by rw [hB1]; exact c_str_at pre s _ hs
    have hl : strlen B pre.length = s.length := by
      have : strlen B pre.length = (c_str B pre.length).length := rfl
      rw [this, hc]
    have hB2 : B = (pre ++ s ++ [0]) ++ (pack t ++ rest) := by rw [hB1]; simp
    have hlen : (pre ++ s ++ [0]).length = pre.length + s.length + 1 := by simp; omega
    obtain ⟨i1, i2, i3, i4⟩ := ih (pre ++ s ++ [0]) rest hB2
      (fun x hx => hnf x (List.mem_cons_of_mem _ hx))
    rw [hlen] at i1 i2 i3 i4
    simp only [List.length_cons, push_ptrs, hl]
    refine ⟨?_, ?_, ?_, ?_⟩
    · intro o ho
      rcases List.mem_cons.mp ho with h | h
      · rw [h]; rfl
      · exact i1 o h
    · simp [i2]
    · simp [hc, i3]
    · rw [i4]; simp [pack]; omega

/-- Reading a NULL-terminated vector whose first pointers are all non-null. -/
theorem read_vec_head (B : List Nat) (a : List (Option Nat)) (tail : List (Option Nat))
    (ha : ∀ o ∈ a, o.isSome = true) :
    read_vec B (a ++ none :: tail) 0 = (a.filterMap id).map (c_str B) := by
  unfold read_vec
  rw [List.drop_zero, List.takeWhile_append_of_pos ha]
  simp [List.takeWhile_cons]

/-- Reading the second vector, which starts behind the first null pointer. -/
theorem read_vec_second (B : List Nat) (a b : List (Option Nat))
    (hb : ∀ o ∈ b, o.isSome = true) :
    read_vec B (a ++ [none] ++ b ++ [none]) (a.length + 1)
      = (b.filterMap id).map (c_str B) := by
  have h1 : a ++ [none] ++ b ++ [none] = (a ++ [none]) ++ (b ++ [none]) := by simp
  have h2 : (a ++ [none]).length = a.length + 1 := by simp
  unfold read_vec
  rw [h1, ← h2, List.drop_left, List.takeWhile_append_of_pos hb]
  simp [List.takeWhile_cons]

/-- The buffer and the counters `dinit_child` has built: the strings of `spec_argv`
followed by those of `spec_envp`, packed, with `argc` the number of the former. -/
theorem dinit_child_built (RUN_PATH SOCK_DIR : CStr) (srv_paths : List CStr) (sess : session)
    (pipenum tdirn : CStr) (hr : nul_free sess.rundir) :
    (dinit_child RUN_PATH SOCK_DIR srv_paths sess pipenum tdirn).execs
      = pack (spec_argv RUN_PATH SOCK_DIR srv_paths sess pipenum tdirn ++ spec_envp sess) ∧
    (dinit_child RUN_PATH SOCK_DIR srv_paths sess pipenum tdirn).argc
      = (spec_argv RUN_PATH SOCK_DIR srv_paths sess pipenum tdirn).length ∧
    (dinit_child RUN_PATH SOCK_DIR srv_paths sess pipenum tdirn).nexec
      = (spec_argv RUN_PATH SOCK_DIR srv_paths sess pipenum tdirn).length
        + (spec_envp sess).length := by
  have h0 : (([] : List Nat), 0) = (pack [], ([] : List CStr).length) := rfl
  have hcond : (sess.rundir.head?.getD 0 ≠ 0) ↔ sess.rundir ≠ [] := by
    cases hrd : sess.rundir with
    | nil => simp
    | cons c t =>
      have : c ≠ 0 := hr c (by rw [hrd]; exact List.mem_cons_self _ _)
      simp [this]
  unfold dinit_child
  simp only []
  rw [h0]
  simp only [add_str_pack, add_srv_paths_pack]
  by_cases hne : sess.rundir ≠ []
  · have hc1 : sess.rundir.head?.getD 0 ≠ 0 := hcond.mpr hne
    simp only [hc1, ne_eq, not_false_eq_true, if_true, add_str_pack]
    simp [spec_argv, spec_envp, hne]
  · have hc1 : ¬ (sess.rundir.head?.getD 0 ≠ 0) := fun h => hne (hcond.mp h)
    simp only [hc1, if_false]
    simp [spec_argv, spec_envp, hne]

theorem srv_args_length (homedir : CStr) (sps : List CStr) :
    (sps.flatMap (fun sp => [cstr "--services-dir", srv_dir_arg homedir sp])).length
      = 2 * sps.length := by
  induction sps with
  | nil => rfl
  | cons sp sps ih =>
    rw [List.flatMap_cons, List.length_append, ih]
    simp
    omega

theorem nul_free_append {a b : CStr} (ha : nul_free a) (hb : nul_free b) :
    nul_free (a ++ b) := by
  intro c hc
  rcases List.mem_append.mp hc with h | h
  · exact ha c h
  · exact hb c h

/-- C16: for NUL-free input strings, the argument vector `dinit_child` passes to
`execvpe` is exactly "dinit", "--user", "--ready-fd", `pipenum`, "--services-dir",
`<RUN_PATH>/<SOCK_DIR>/<uid>/<scratch dir>`, followed for each configured path in order
by "--services-dir" and the path itself when it begins with '/' or `<homedir>/<path>`
otherwise; the environment vector is exactly "HOME=<homedir>", "UID=<uid>", "GID=<gid>",
"PATH=/usr/local/bin:/usr/bin:/bin", plus "XDG_RUNTIME_DIR=<rundir>" exactly when rundir
is non-empty.  The flat buffer holds these strings in that order, each followed by a NUL;
`argp` has `nexec + 2` entries, the entry at index `argc` and the last one are null
pointers, and `envp` is read from index `argc + 1`. -/
theorem C16_exec_vectors (RUN_PATH SOCK_DIR : CStr) (srv_paths : List CStr) (sess : session)
    (pipenum tdirn : CStr)
    (h1 : nul_free RUN_PATH) (h2 : nul_free SOCK_DIR) (h3 : ∀ sp ∈ srv_paths, nul_free sp)
    (h4 : nul_free sess.homedir) (h5 : nul_free sess.rundir) (h6 : nul_free sess.uids)
    (h7 : nul_free sess.gids) (h8 : nul_free pipenum) (h9 : nul_free tdirn) :
    exec_argv (dinit_child RUN_PATH SOCK_DIR srv_paths sess pipenum tdirn)
      = spec_argv RUN_PATH SOCK_DIR srv_paths sess pipenum tdirn ∧
    exec_envp (dinit_child RUN_PATH SOCK_DIR srv_paths sess pipenum tdirn)
      = spec_envp sess ∧
    (dinit_child RUN_PATH SOCK_DIR srv_paths sess pipenum tdirn).execs
      = pack (spec_argv RUN_PATH SOCK_DIR srv_paths sess pipenum tdirn ++ spec_envp sess) ∧
    (dinit_child RUN_PATH SOCK_DIR srv_paths sess pipenum tdirn).argc
      = 6 + 2 * srv_paths.length ∧
    (dinit_child RUN_PATH SOCK_DIR srv_paths sess pipenum tdirn).argp.length
      = (dinit_child RUN_PATH SOCK_DIR srv_paths sess pipenum tdirn).nexec + 2 ∧
    (dinit_child RUN_PATH SOCK_DIR srv_paths sess pipenum tdirn).argp[
        (dinit_child RUN_PATH SOCK_DIR srv_paths sess pipenum tdirn).argc]? = some none ∧
    (dinit_child RUN_PATH SOCK_DIR srv_paths sess pipenum tdirn).argp.getLast? = some none := by
  obtain ⟨he, hc, hn⟩ := dinit_child_built RUN_PATH SOCK_DIR srv_paths sess pipenum tdirn h5
  have hslash : nul_free (cstr "/") := by decide
  have hargv : ∀ s ∈ spec_argv RUN_PATH SOCK_DIR srv_paths sess pipenum tdirn, nul_free s := by
    intro s hs
    unfold spec_argv at hs
    rcases List.mem_append.mp hs with h | h
    · simp only [List.mem_cons, List.mem_singleton, List.not_mem_nil, or_false] at h
      rcases h with h | h | h | h | h | h
      · rw [h]; decide
      · rw [h]; decide
      · rw [h]; decide
      · rw [h]; exact h8
      · rw [h]; decide
      · rw [h]
        exact nul_free_append (nul_free_append (nul_free_append (nul_free_append
          (nul_free_append (nul_free_append h1 hslash) h2) hslash) h6) hslash) h9
    · obtain ⟨sp, hsp, hmem⟩ := List.mem_flatMap.mp h
      simp only [List.mem_cons, List.mem_singleton, List.not_mem_nil, or_false] at hmem
      rcases hmem with h | h
      · rw [h]; decide
      · rw [h]
        unfold srv_dir_arg
        split
        · exact h3 sp hsp
        · exact nul_free_append (nul_free_append h4 hslash) (h3 sp hsp)
  have henvp : ∀ s ∈ spec_envp sess, nul_free s := by
    intro s hs
    unfold spec_envp at hs
    rcases List.mem_append.mp hs with h | h
    · simp only [List.mem_cons, List.mem_singleton, List.not_mem_nil, or_false] at h
      rcases h with h | h | h | h
      · rw [h]; exact nul_free_append (by decide) h4
      · rw [h]; exact nul_free_append (by decide) h6
      · rw [h]; exact nul_free_append (by decide) h7
      · rw [h]; decide
    · by_cases hne : sess.rundir ≠ []
      · rw [if_pos hne] at h
        simp only [List.mem_singleton] at h
        rw [h]; exact nul_free_append (by decide) h5
      · rw [if_neg hne] at h
        simp at h
  have hargp : (dinit_child RUN_PATH SOCK_DIR srv_paths sess pipenum tdirn).argp
      = (push_ptrs (dinit_child RUN_PATH SOCK_DIR srv_paths sess pipenum tdirn).execs
          (dinit_child RUN_PATH SOCK_DIR srv_paths sess pipenum tdirn).argc 0).1 ++ [none] ++
        (push_ptrs (dinit_child RUN_PATH SOCK_DIR srv_paths sess pipenum tdirn).execs
          ((dinit_child RUN_PATH SOCK_DIR srv_paths sess pipenum tdirn).nexec
            - (dinit_child RUN_PATH SOCK_DIR srv_paths sess pipenum tdirn).argc)
          (push_ptrs (dinit_child RUN_PATH SOCK_DIR srv_paths sess pipenum tdirn).execs
            (dinit_child RUN_PATH SOCK_DIR srv_paths sess pipenum tdirn).argc 0).2).1 ++
        [none] := rfl
  have hB1 : (dinit_child RUN_PATH SOCK_DIR srv_paths sess pipenum tdirn).execs
      = [] ++ (pack (spec_argv RUN_PATH SOCK_DIR srv_paths sess pipenum tdirn)
          ++ pack (spec_envp sess)) := by
    rw [he, pack_append]; rfl
  have hB2 : (dinit_child RUN_PATH SOCK_DIR srv_paths sess pipenum tdirn).execs
      = pack (spec_argv RUN_PATH SOCK_DIR srv_paths sess pipenum tdirn)
          ++ (pack (spec_envp sess) ++ []) := by
    rw [he, pack_append]; simp
  obtain ⟨a1, a2, a3, a4⟩ := push_ptrs_pack _ _ [] _ hB1 hargv
  obtain ⟨b1, b2, b3, _⟩ := push_ptrs_pack _ _ _ [] hB2 henvp
  rw [← hc] at a1 a2 a3 a4
  have hsub : (dinit_child RUN_PATH SOCK_DIR srv_paths sess pipenum tdirn).nexec
      - (dinit_child RUN_PATH SOCK_DIR srv_paths sess pipenum tdirn).argc
      = (spec_envp sess).length := by rw [hn, hc]; omega
  simp only [List.length_nil, Nat.zero_add] at a1 a2 a3 a4
  rw [← a4, ← hsub] at b1 b2 b3
  refine ⟨?_, ?_, he, ?_, ?_, ?_, ?_⟩
  · unfold exec_argv
    rw [hargp]
    simp only [List.append_assoc, List.singleton_append]
    exact (read_vec_head _ _ _ a1).trans a3
  · unfold exec_envp
    rw [hargp]
    have := read_vec_second
      (dinit_child RUN_PATH SOCK_DIR srv_paths sess pipenum tdirn).execs
      (push_ptrs (dinit_child RUN_PATH SOCK_DIR srv_paths sess pipenum tdirn).execs
        (dinit_child RUN_PATH SOCK_DIR srv_paths sess pipenum tdirn).argc 0).1 _ b1
    rw [a2] at this
    rw [this]
    exact b3
  · rw [hc]
    unfold spec_argv
    rw [List.length_append, srv_args_length]
    simp
  · rw [hargp]
    simp only [List.length_append, List.length_singleton, a2, b2]
    omega
  · rw [hargp]
    simp only [List.append_assoc, List.singleton_append]
    rw [List.getElem?_append_right (by rw [a2])]
    simp [a2]
  · rw [hargp]
    exact List.getLast?_concat _

end Dinit

namespace Dinit

/-- C16 at a concrete input: RUN_PATH "/run", SOCK_DIR "ts", service paths "/d" and "d",
ready descriptor "4", scratch directory "d.1", and the session `sess0`. -/
theorem C16_exec_vectors_witness :
    exec_argv (dinit_child [47, 114, 117, 110] [116, 115] [[47, 100], [100]] sess0 [52]
        [100, 46, 49])
      = [cstr "dinit", cstr "--user", cstr "--ready-fd", cstr "4", cstr "--services-dir",
         cstr "/run/ts/7/d.1", cstr "--services-dir", cstr "/d", cstr "--services-dir",
         cstr "/h/d"] ∧
    exec_envp (dinit_child [47, 114, 117, 110] [116, 115] [[47, 100], [100]] sess0 [52]
        [100, 46, 49])
      = [cstr "HOME=/h", cstr "UID=7", cstr "GID=7",
         cstr "PATH=/usr/local/bin:/usr/bin:/bin", cstr "XDG_RUNTIME_DIR=/r"] :=
  ⟨(C16_exec_vectors [47, 114, 117, 110] [116, 115] [[47, 100], [100]] sess0 [52]
      [100, 46, 49] (by decide) (by decide) (by decide) (by decide) (by decide) (by decide)
      (by decide) (by decide) (by decide)).1.trans (by decide),
   (C16_exec_vectors [47, 114, 117, 110] [116, 115] [[47, 100], [100]] sess0 [52]
      [100, 46, 49] (by decide) (by decide) (by decide) (by decide) (by decide) (by decide)
      (by decide) (by decide) (by decide)).2.1.trans (by decide)⟩

end Dinit

/-! ## C17: arming a timer that is armed -/

/-- C17 (the code at a failing input): with a login timeout of 60 s configured, peer 1001
sends MSG_START(1001) on descriptor 7, so `srv_start` arms the login timer and the login
has `timer_armed = true`; the connection then closes before the boot has finished.
`conn_term` sends SIGTERM to the service manager and enters `arm_timer` for that login,
whose timer is still armed.  Once the terminated service manager is reaped the login has
`timer_armed = false`, and `sig_handle_alrm` for that login (the expiry of the first,
never deleted timer) returns false. -/
theorem C17_double_arm :
    (handle_read env0 7 (.msg 16022) []).2.1.map (fun l => (l.uid, l.timer_armed, l.srv_pid))
      = [(1001, true, 4242)] ∧
    (conn_term env0 7 (handle_read env0 7 (.msg 16022) []).2.1).2
      = [Event.kill 4242 15, Event.arm_timer 1001 60, Event.close 7] ∧
    (srv_reaper env0 4242
        (conn_term env0 7 (handle_read env0 7 (.msg 16022) []).2.1).1 []).2.1.map
          (fun l => (l.timer_armed, (sig_handle_alrm env0 l []).1))
      = [(false, false)] := by
  decide

/-! ## C19: a pending start without a session -/

/-- C19 (the code at a failing input): the last session (descriptor 7) of `login_ready`
closes, so its service manager 4242 is being terminated; a new connection 8 sends
MSG_START(1000), which sets `srv_pending`; connection 8 closes before 4242 is reaped.  The
login then has `srv_pending = true` and no session, and reaping 4242 enters `srv_start`
for it: a service manager (PID 4300) runs for a login without sessions. -/
theorem C19_pending_without_session :
    (conn_term env_peer1000 8
        (handle_read env_peer1000 8 (.msg 16006)
          (conn_term env0 7 [login_ready]).1).2.1).1.map
          (fun l => (l.srv_pending, l.sessions, l.term_pid))
      = [(true, [], 4242)] ∧
    started (srv_reaper env_root2 4242
        (conn_term env_peer1000 8
          (handle_read env_peer1000 8 (.msg 16006)
            (conn_term env0 7 [login_ready]).1).2.1).1 []).2.2.2
      = [1000] ∧
    (srv_reaper env_root2 4242
        (conn_term env_peer1000 8
          (handle_read env_peer1000 8 (.msg 16006)
            (conn_term env0 7 [login_ready]).1).2.1).1 []).2.1.map
          (fun l => (l.sessions, l.srv_pid, l.repopulate))
      = [([], 4300, true)] := by
  decide

/-! ## C18: compaction of the poll list -/

/-- The queueing loop on a poll list split behind its first two entries. -/
theorem queue_pipes_spec (h : List pollfd) (hh : h.length = 2) (logins : List login) :
    ∀ (t : List pollfd) (npipes : Nat),
      npipes + (logins.filter (fun l => l.pipe_queued)).length < SIZE →
      queue_pipes logins (h ++ t) npipes
        = (logins.map (fun l => { l with pipe_queued := false }),
           h ++ (logins.filter (fun l => l.pipe_queued)).reverse.map pipe_pollfd ++ t,
           npipes + (logins.filter (fun l => l.pipe_queued)).length) := by
  induction logins with
  | nil => intro t npipes _; simp [queue_pipes]
  | cons l rest ih =>
    intro t npipes hnp
    unfold queue_pipes
    cases hq : l.pipe_queued with
    | false =>
      have hnp2 : npipes + (rest.filter (fun l => l.pipe_queued)).length < SIZE := by
        simpa [List.filter_cons, hq] using hnp
      have hl : { l with pipe_queued := false } = l := by
        cases l; simp_all
      simp only [if_true]
      rw [ih t npipes hnp2]
      simp [List.filter_cons, hq, hl]
    | true =>
      have hlen : (List.filter (fun l => l.pipe_queued) (l :: rest)).length
          = (rest.filter (fun l => l.pipe_queued)).length + 1 := by
        simp [List.filter_cons, hq]
      rw [hlen] at hnp
      have htake : (h ++ t).take 2 = h := by rw [← hh]; exact List.take_left' rfl
      have hdrop : (h ++ t).drop 2 = t := by rw [← hh]; exact List.drop_left' rfl
      have hmod : (npipes + 1) % SIZE = npipes + 1 := Nat.mod_eq_of_lt (by omega)
      simp only [Bool.true_eq_false, if_false, htake, hdrop, hmod]
      rw [ih (pipe_pollfd l :: t) (npipes + 1) (by omega)]
      simp [List.filter_cons, hq]
      omega

/-- C18: for a poll list of length at least 2 whose first two entries are not -1, and a
login table in which every login with `pipe_queued` has `userpipe ≠ -1`, the compaction
step yields the first two entries unchanged, then the ready pipes of all queued logins
(the last queued login first), then the former entries with `fd ≠ -1` in their former
order.  No entry of the result has `fd = -1`, `npipes` has grown by the number of queued
logins, and every login has `pipe_queued = false`, being otherwise unchanged. -/
theorem C18_compaction (logins : List login) (fds : List pollfd) (npipes : Nat)
    (hlen : 2 ≤ fds.length) (h01 : ∀ p ∈ fds.take 2, p.fd ≠ -1)
    (hq : ∀ l ∈ logins, l.pipe_queued = true → l.userpipe ≠ -1)
    (hnp : npipes + (logins.filter (fun l => l.pipe_queued)).length < SIZE) :
    (do_compact logins fds npipes).2.1
      = fds.take 2 ++ (logins.filter (fun l => l.pipe_queued)).reverse.map pipe_pollfd
          ++ (fds.drop 2).filter (fun p => p.fd != -1) ∧
    (fds.take 2).length = 2 ∧
    (∀ p ∈ (do_compact logins fds npipes).2.1, p.fd ≠ -1) ∧
    (do_compact logins fds npipes).2.2
      = npipes + (logins.filter (fun l => l.pipe_queued)).length ∧
    (do_compact logins fds npipes).1 = logins.map (fun l => { l with pipe_queued := false }) ∧
    ∀ l ∈ (do_compact logins fds npipes).1, l.pipe_queued = false := by
  have hh : (fds.take 2).length = 2 := by rw [List.length_take]; omega
  have hf : fds.filter (fun p => p.fd != -1)
      = fds.take 2 ++ (fds.drop 2).filter (fun p => p.fd != -1) := by
    conv_lhs => rw [← List.take_append_drop 2 fds]
    rw [List.filter_append]
    congr 1
    apply List.filter_eq_self.mpr
    intro p hp
    simpa using h01 p hp
  have hspec := queue_pipes_spec (fds.take 2) hh logins
    ((fds.drop 2).filter (fun p => p.fd != -1)) npipes hnp
  have hdc : do_compact logins fds npipes
      = (logins.map (fun l => { l with pipe_queued := false }),
         fds.take 2 ++ (logins.filter (fun l => l.pipe_queued)).reverse.map pipe_pollfd
          ++ (fds.drop 2).filter (fun p => p.fd != -1),
         npipes + (logins.filter (fun l => l.pipe_queued)).length) := by
    unfold do_compact
    rw [hf, hspec]
  rw [hdc]
  refine ⟨rfl, hh, ?_, rfl, rfl, ?_⟩
  · intro p hp
    simp only [List.mem_append, List.mem_map, List.mem_reverse, List.mem_filter] at hp
    rcases hp with (hp | ⟨l, ⟨hl, hlq⟩, hpl⟩) | ⟨_, hp⟩
    · exact h01 p hp
    · rw [← hpl]
      exact hq l hl hlq
    · simpa using hp
  · intro l hl
    simp only [List.mem_map] at hl
    obtain ⟨l0, _, h0⟩ := hl
    rw [← h0]

/-- C18 at a concrete input: one queued login (ready pipe 10) and one terminated
connection in the poll list. -/
theorem C18_compaction_witness :
    (do_compact [login_queued] fds_gap 0).2.1.map (fun p => p.fd) = [3, 4, 10, 7] ∧
    (do_compact [login_queued] fds_gap 0).2.2 = 1 :=
  ⟨by
      have h := (C18_compaction [login_queued] fds_gap 0 (by decide) (by decide) (by decide)
        (by decide)).1
      rw [h]; decide,
   (C18_compaction [login_queued] fds_gap 0 (by decide) (by decide) (by decide)
      (by decide)).2.2.2.1.trans (by decide)⟩

/-! ## C20: a registered ready pipe that no login owns -/

/-- C20 (the code at a failing input): after the seven steps `run_s1` to `run_s7` the
poll list is 3, 4, 10, 8 with `npipes = 1`, so index 2 is the ready-pipe region and holds
descriptor 10 with a hang-up reported, while the only login has `userpipe = 12`: the
later `srv_start` overwrote `userpipe` while the previous ready pipe was still
registered.  `fd_handle_pipe` for index 2 finds no login and returns false. -/
theorem C20_orphan_pipe :
    run_s7.1 = true ∧
    run_s7.2.2.1.map (fun p => (p.fd, p.revents)) = [(3, 1), (4, 0), (10, 16), (8, 0)] ∧
    run_s6.2.2 = 1 ∧
    run_s7.2.1.map (fun l => (l.uid, l.userpipe, l.srv_pid)) = [(1001, 12, 4300)] ∧
    pipe_find 10 run_s7.2.1 = none ∧
    (fd_handle_pipe env_root2 2 [] run_s7.2.1 run_s7.2.2.1 run_s6.2.2).1 = false := by
  decide

end Turnstile
